import Mathlib

/-!
Verification development for a multi-provider OAuth2 connector
(backend/integrations/airtable.py, notion.py, hubspot.py with
backend/redis_client.py).

Shallow embedding conventions:
  * Python `str` is Lean `String`; bytes are `List Nat` (each < 256).
  * The Redis transient store is an association list `Store`; the redis
    client's set/get/delete become `storeSet`/`storeGet`/`storeDel`
    (set conses a binding, get returns the first binding, delete removes
    all bindings for the key, matching redis key semantics).
  * `fastapi.HTTPException(status_code, detail)` raised by the code is the
    `Except.error (PyErr.http status detail)` outcome; an exception that the
    code does not catch surfaces as the framework's 500 response, embedded
    as `PyErr.http 500 "Internal Server Error"`.
  * Network calls (httpx/requests) are oracles passed as arguments: the
    token endpoint's behaviour is a `TokenResult` value, a paginated listing
    endpoint's behaviour is the list of successive page responses.
  * `hashlib.sha256(...).digest()` is an abstract byte function argument
    `sha : List Nat → List Nat` (the claims under verification never depend
    on the digest's value, only on how the code post-processes it).
  * `json.dumps` on the state dictionary `{"state": ..., "user_id": ...,
    "org_id": ...}` is embedded byte-for-byte (`dumpsState`, CPython's
    default separators and `ensure_ascii=True` escaping); `json.loads`
    applied to such state blobs is embedded as `loadsState`, a parser for
    exactly the serializer's canonical image (the code only ever feeds it
    strings produced by `dumpsState`, plus attacker-supplied strings whose
    rejection shape is not load-bearing for any claim).  `json.loads` of
    arbitrary credential payloads is an abstract parser argument
    `parse : String → Option JVal`.
-/

set_option maxRecDepth 8192
set_option maxHeartbeats 1600000

/-- Error outcomes a handler can raise: `http` is `fastapi.HTTPException`,
`valueError` is Python's `ValueError`. -/
inductive PyErr where
  | http (status : Nat) (detail : String)
  | valueError (msg : String)
deriving DecidableEq

/-- The transient KV store (redis) as an association list. -/
def Store : Type := List (String × String)

/-- An empty store. -/
def emptyStore : Store := []

/-- `redis.set key value` (TTL not modelled: no claim depends on expiry). -/
def storeSet (st : Store) (k v : String) : Store := (k, v) :: st

/-- `redis.get key`: the most recent binding, if any. -/
def storeGet : Store → String → Option String
  | [], _ => none
  | (k2, v) :: t, k => if k = k2 then some v else storeGet t k

/-- `redis.delete key`: removes every binding for the key. -/
def storeDel (st : Store) (k : String) : Store :=
  st.filter (fun p => p.1 ≠ k)

theorem storeGet_set_same (st : Store) (k v : String) :
    storeGet (storeSet st k v) k = some v := by
  simp [storeGet, storeSet]

theorem storeGet_set_other (st : Store) (k v k' : String) (h : k' ≠ k) :
    storeGet (storeSet st k v) k' = storeGet st k' := by
  simp [storeGet, storeSet, h]

theorem storeGet_del_same (st : Store) (k : String) :
    storeGet (storeDel st k) k = none := by
  induction st with
  | nil => rfl
  | cons p t ih =>
    by_cases h : p.1 = k
    · simpa [storeDel, h] using ih
    · simpa [storeDel, storeGet, h, Ne.symm h] using ih

theorem storeGet_del_other (st : Store) (k k' : String) (h : k' ≠ k) :
    storeGet (storeDel st k) k' = storeGet st k' := by
  induction st with
  | nil => rfl
  | cons p t ih =>
    by_cases hp : p.1 = k
    · have hk : k' ≠ p.1 := by rw [hp]; exact h
      simp [storeDel, storeGet, hp, hk, h] at ih ⊢
      rw [ih]
    · by_cases hk : k' = p.1
      · simp [storeDel, storeGet, hp, hk]
      · simp [storeDel, storeGet, hp, hk] at ih ⊢
        rw [ih]

/-- Substring test (used to state "the URL/detail embeds ..."). -/
def listContainsSub (p : List Char) : List Char → Bool
  | [] => p.isPrefixOf []
  | c :: t => p.isPrefixOf (c :: t) || listContainsSub p t

/-- `containsSub s pat = true` iff `pat` occurs contiguously in `s`. -/
def containsSub (s pat : String) : Bool := listContainsSub pat.data s.data

theorem isPrefixOf_append_self (p r : List Char) :
    p.isPrefixOf (p ++ r) = true := by
  induction p with
  | nil => simp [List.isPrefixOf]
  | cons c t ih => simp [List.isPrefixOf, ih]

theorem listContainsSub_of_prefix (p l : List Char) (h : p.isPrefixOf l = true) :
    listContainsSub p l = true := by
  cases l with
  | nil => simpa [listContainsSub] using h
  | cons c t => simp [listContainsSub, h]

theorem listContainsSub_append_mid (a p r : List Char) :
    listContainsSub p (a ++ (p ++ r)) = true := by
  induction a with
  | nil => exact listContainsSub_of_prefix _ _ (isPrefixOf_append_self p r)
  | cons c t ih => simp [listContainsSub, ih]

/-- A string contains any middle chunk of an append decomposition. -/
theorem containsSub_mid (a b c : String) :
    containsSub (a ++ b ++ c) b = true := by
  have : (a ++ b ++ c).data = a.data ++ (b.data ++ c.data) := by
    simp [String.data_append]
  simpa [containsSub, this] using listContainsSub_append_mid a.data b.data c.data

-- ---------------------------------------------------------------------------
-- base64 (urlsafe alphabet), as used by base64.urlsafe_b64encode / _b64decode
-- ---------------------------------------------------------------------------

/-- The URL-safe base64 alphabet. -/
def b64alphabet : List Char :=
  "ABCDEFGHIJKLMNOPQRSTUVWXYZabcdefghijklmnopqrstuvwxyz0123456789-_".data

/-- Character for a 6-bit index. -/
def b64char (i : Nat) : Char := b64alphabet.getD i '?'

/-- Index of an alphabet character. -/
def b64inv (c : Char) : Option Nat := b64alphabet.findIdx? (fun a => a == c)

theorem b64inv_b64char (i : Nat) (h : i < 64) : b64inv (b64char i) = some i := by
  interval_cases i <;> rfl

theorem b64char_ne_eq (i : Nat) : b64char i ≠ '=' := by
  unfold b64char
  rcases h : b64alphabet[i]? with _ | c
  · simp [List.getD, h]
  · have hm : c ∈ b64alphabet := List.getElem?_mem h
    have : ∀ x ∈ b64alphabet, x ≠ '=' := by decide
    simpa [List.getD, h] using this c hm

/-- `base64.urlsafe_b64encode` on a byte list (with `=` padding). -/
def b64encode : List Nat → List Char
  | [] => []
  | [b1] => [b64char (b1 / 4), b64char (b1 % 4 * 16), '=', '=']
  | [b1, b2] => [b64char (b1 / 4), b64char (b1 % 4 * 16 + b2 / 16),
                 b64char (b2 % 16 * 4), '=']
  | b1 :: b2 :: b3 :: rest =>
      b64char (b1 / 4) :: b64char (b1 % 4 * 16 + b2 / 16) ::
      b64char (b2 % 16 * 4 + b3 / 64) :: b64char (b3 % 64) :: b64encode rest

/-- `base64.urlsafe_b64decode` on the characters of a padded blob (strict on
inputs outside the encoder's image; only the image is load-bearing). -/
def b64decode : List Char → Option (List Nat)
  | [] => some []
  | c1 :: c2 :: c3 :: c4 :: rest =>
    match b64inv c1, b64inv c2 with
    | some i1, some i2 =>
      if c3 = '=' then
        if c4 = '=' ∧ rest = [] then some [i1 * 4 + i2 / 16] else none
      else
        match b64inv c3 with
        | some i3 =>
          if c4 = '=' then
            if rest = [] then some [i1 * 4 + i2 / 16, i2 % 16 * 16 + i3 / 4]
            else none
          else
            match b64inv c4 with
            | some i4 =>
              (b64decode rest).map
                (fun t => (i1 * 4 + i2 / 16) :: (i2 % 16 * 16 + i3 / 4) ::
                          (i3 % 4 * 64 + i4) :: t)
            | none => none
        | none => none
    | _, _ => none
  | _ => none

theorem b64_roundtrip :
    ∀ bs : List Nat, (∀ b ∈ bs, b < 256) →
      b64decode (b64encode bs) = some bs := by
  intro bs
  induction bs using b64encode.induct with
  | case1 => intro _; rfl
  | case2 b1 =>
    intro h
    have h1 : b1 < 256 := h b1 (by simp)
    have e1 : b1 / 4 < 64 := by omega
    have e2 : b1 % 4 * 16 < 64 := by omega
    simp only [b64encode, b64decode, b64inv_b64char _ e1, b64inv_b64char _ e2]
    simp
    omega
  | case3 b1 b2 =>
    intro h
    have h1 : b1 < 256 := h b1 (by simp)
    have h2 : b2 < 256 := h b2 (by simp)
    have e1 : b1 / 4 < 64 := by omega
    have e2 : b1 % 4 * 16 + b2 / 16 < 64 := by omega
    have e3 : b2 % 16 * 4 < 64 := by omega
    simp only [b64encode, b64decode, b64inv_b64char _ e1, b64inv_b64char _ e2,
      b64inv_b64char _ e3]
    simp [b64char_ne_eq]
    omega
  | case4 b1 b2 b3 rest ih =>
    intro h
    have h1 : b1 < 256 := h b1 (by simp)
    have h2 : b2 < 256 := h b2 (by simp)
    have h3 : b3 < 256 := h b3 (by simp)
    have hrest : ∀ b ∈ rest, b < 256 := by
      intro b hb; exact h b (by simp [hb])
    have e1 : b1 / 4 < 64 := by omega
    have e2 : b1 % 4 * 16 + b2 / 16 < 64 := by omega
    have e3 : b2 % 16 * 4 + b3 / 64 < 64 := by omega
    have e4 : b3 % 64 < 64 := by omega
    simp only [b64encode, b64decode, b64inv_b64char _ e1, b64inv_b64char _ e2,
      b64inv_b64char _ e3, b64inv_b64char _ e4]
    simp [b64char_ne_eq, ih hrest]
    omega

-- ---------------------------------------------------------------------------
-- UTF-8 (str.encode("utf-8") / bytes.decode("utf-8"))
-- ---------------------------------------------------------------------------

/-- Concatenation of a list of lists. -/
def joinL : List (List α) → List α
  | [] => []
  | l :: t => l ++ joinL t

/-- UTF-8 bytes of one code point. -/
def utf8EncodeChar (c : Char) : List Nat :=
  if c.toNat < 0x80 then [c.toNat]
  else if c.toNat < 0x800 then [0xC0 + c.toNat / 64, 0x80 + c.toNat % 64]
  else if c.toNat < 0x10000 then
    [0xE0 + c.toNat / 4096, 0x80 + c.toNat / 64 % 64, 0x80 + c.toNat % 64]
  else
    [0xF0 + c.toNat / 262144, 0x80 + c.toNat / 4096 % 64,
     0x80 + c.toNat / 64 % 64, 0x80 + c.toNat % 64]

/-- `str.encode("utf-8")`. -/
def utf8Encode : List Char → List Nat
  | [] => []
  | c :: t => utf8EncodeChar c ++ utf8Encode t

/-- Build a `Char` from a code point, rejecting surrogates / out-of-range. -/
def mkCharQ (n : Nat) : Option Char :=
  if n < 0xD800 ∨ (0xE000 ≤ n ∧ n < 0x110000) then some (Char.ofNat n) else none

theorem mkCharQ_toNat (c : Char) : mkCharQ c.toNat = some c := by
  have hv : c.toNat < 0xD800 ∨ (0xE000 ≤ c.toNat ∧ c.toNat < 0x110000) := c.valid
  rw [mkCharQ, if_pos hv, Char.ofNat_toNat]

/-- `bytes.decode("utf-8")` (strict on the multi-byte cases; the ASCII case is
the only load-bearing one, since `json.dumps(..., ensure_ascii=True)` output
is pure ASCII). -/
def utf8Decode : List Nat → Option (List Char)
  | [] => some []
  | b :: rest =>
    if b < 0x80 then (utf8Decode rest).map (fun t => Char.ofNat b :: t)
    else if b < 0xC2 then none
    else
      match rest with
      | [] => none
      | b2 :: r2 =>
        if ¬ (0x80 ≤ b2 ∧ b2 < 0xC0) then none
        else if b < 0xE0 then
          (mkCharQ ((b - 0xC0) * 64 + (b2 - 0x80))).bind
            (fun c => (utf8Decode r2).map (fun t => c :: t))
        else
          match r2 with
          | [] => none
          | b3 :: r3 =>
            if ¬ (0x80 ≤ b3 ∧ b3 < 0xC0) then none
            else if b < 0xF0 then
              (mkCharQ ((b - 0xE0) * 4096 + (b2 - 0x80) * 64 + (b3 - 0x80))).bind
                (fun c => (utf8Decode r3).map (fun t => c :: t))
            else
              match r3 with
              | [] => none
              | b4 :: r4 =>
                if ¬ (0x80 ≤ b4 ∧ b4 < 0xC0) then none
                else if b < 0xF5 then
                  (mkCharQ ((b - 0xF0) * 262144 + (b2 - 0x80) * 4096 +
                      (b3 - 0x80) * 64 + (b4 - 0x80))).bind
                    (fun c => (utf8Decode r4).map (fun t => c :: t))
                else none

theorem utf8EncodeChar_ascii (c : Char) (h : c.toNat < 128) :
    utf8EncodeChar c = [c.toNat] := by
  rw [utf8EncodeChar, if_pos h]

theorem utf8Encode_ascii (l : List Char) (h : ∀ c ∈ l, c.toNat < 128) :
    utf8Encode l = l.map Char.toNat := by
  induction l with
  | nil => rfl
  | cons c t ih =>
    have hc : c.toNat < 128 := h c (by simp)
    have ht : ∀ x ∈ t, x.toNat < 128 := fun x hx => h x (by simp [hx])
    rw [utf8Encode, utf8EncodeChar_ascii c hc, ih ht]
    rfl

theorem utf8_roundtrip_ascii (l : List Char) (h : ∀ c ∈ l, c.toNat < 128) :
    utf8Decode (utf8Encode l) = some l := by
  induction l with
  | nil => rfl
  | cons c t ih =>
    have hc : c.toNat < 128 := h c (by simp)
    have ht : ∀ x ∈ t, x.toNat < 128 := fun x hx => h x (by simp [hx])
    rw [utf8Encode, utf8EncodeChar_ascii c hc]
    have step : utf8Decode (c.toNat :: utf8Encode t) =
        (utf8Decode (utf8Encode t)).map (fun l2 => Char.ofNat c.toNat :: l2) := by
      cases he : utf8Encode t with
      | nil => rw [utf8Decode.eq_def]; simp [hc]
      | cons x xs =>
        conv_lhs => rw [utf8Decode.eq_def]
        simp only [if_pos hc]
    rw [show ([c.toNat] ++ utf8Encode t) = c.toNat :: utf8Encode t from rfl, step,
      ih ht]
    simp [Char.ofNat_toNat]

-- ---------------------------------------------------------------------------
-- JSON string escaping (json.dumps with ensure_ascii=True) and the scanner
-- half of json.loads for string literals
-- ---------------------------------------------------------------------------

/-- Lowercase hex digit. -/
def hexDig : Nat → Char
  | 0 => '0' | 1 => '1' | 2 => '2' | 3 => '3' | 4 => '4'
  | 5 => '5' | 6 => '6' | 7 => '7' | 8 => '8' | 9 => '9'
  | 10 => 'a' | 11 => 'b' | 12 => 'c' | 13 => 'd' | 14 => 'e' | 15 => 'f'
  | _ => '0'

/-- Uppercase hex digit (urllib percent escapes). -/
def hexDigU : Nat → Char
  | 0 => '0' | 1 => '1' | 2 => '2' | 3 => '3' | 4 => '4'
  | 5 => '5' | 6 => '6' | 7 => '7' | 8 => '8' | 9 => '9'
  | 10 => 'A' | 11 => 'B' | 12 => 'C' | 13 => 'D' | 14 => 'E' | 15 => 'F'
  | _ => '0'

/-- Hex digit value (both cases accepted, like Python's parsers). -/
def hexVal (c : Char) : Option Nat :=
  if 48 ≤ c.toNat ∧ c.toNat ≤ 57 then some (c.toNat - 48)
  else if 97 ≤ c.toNat ∧ c.toNat ≤ 102 then some (c.toNat - 87)
  else if 65 ≤ c.toNat ∧ c.toNat ≤ 70 then some (c.toNat - 55)
  else none

theorem hexVal_hexDig (n : Nat) (h : n < 16) : hexVal (hexDig n) = some n := by
  interval_cases n <;> rfl

theorem hexDig_ascii (n : Nat) : (hexDig n).toNat < 128 := by
  unfold hexDig; split <;> decide

/-- Python's `"%04x" % v` for `v < 0x10000`. -/
def toHex4 (v : Nat) : List Char :=
  [hexDig (v / 4096), hexDig (v / 256 % 16), hexDig (v / 16 % 16), hexDig (v % 16)]

/-- Four hex digits back to a value. -/
def fromHexDigits (h1 h2 h3 h4 : Char) : Option Nat :=
  match hexVal h1, hexVal h2, hexVal h3, hexVal h4 with
  | some a, some b, some c, some d => some (a * 4096 + b * 256 + c * 16 + d)
  | _, _, _, _ => none

theorem fromHexDigits_toHex4 (v : Nat) (h : v < 0x10000) :
    fromHexDigits (hexDig (v / 4096)) (hexDig (v / 256 % 16))
      (hexDig (v / 16 % 16)) (hexDig (v % 16)) = some v := by
  have b1 : v / 4096 < 16 := by omega
  rw [fromHexDigits, hexVal_hexDig _ b1, hexVal_hexDig _ (by omega),
    hexVal_hexDig _ (by omega), hexVal_hexDig _ (by omega)]
  simp only [Option.some.injEq]
  omega

/-- One character of `json.dumps`'s `ensure_ascii=True` string escaping
(python's ESCAPE_DCT / `\uXXXX` forms, surrogate pairs for astral chars). -/
def escChar (c : Char) : List Char :=
  if c = '"' then ['\\', '"']
  else if c = '\\' then ['\\', '\\']
  else if c.toNat = 8 then ['\\', 'b']
  else if c.toNat = 9 then ['\\', 't']
  else if c.toNat = 10 then ['\\', 'n']
  else if c.toNat = 12 then ['\\', 'f']
  else if c.toNat = 13 then ['\\', 'r']
  else if 0x20 ≤ c.toNat ∧ c.toNat ≤ 0x7E then [c]
  else if c.toNat < 0x10000 then '\\' :: 'u' :: toHex4 c.toNat
  else
    ('\\' :: 'u' :: toHex4 (0xD800 + (c.toNat - 0x10000) / 1024)) ++
    ('\\' :: 'u' :: toHex4 (0xDC00 + (c.toNat - 0x10000) % 1024))

/-- Escape a whole string body. -/
def escStr : List Char → List Char
  | [] => []
  | c :: t => escChar c ++ escStr t


/-- Read four hex digits off the input. -/
def scanHex4 : List Char → Option (Nat × List Char)
  | h1 :: h2 :: h3 :: h4 :: r => (fromHexDigits h1 h2 h3 h4).map (fun v => (v, r))
  | _ => none

/-- Read a following `\uXXXX` continuation escape. -/
def scanUCont : List Char → Option (Nat × List Char)
  | e2 :: u2 :: r2 => if e2 = '\\' ∧ u2 = 'u' then scanHex4 r2 else none
  | _ => none

/-- Decode a `\uXXXX` escape (with a following low-surrogate escape when the
first value is a high surrogate).  Lone surrogates are rejected (Lean `Char`
cannot carry them; the serializer never emits them). -/
def scanUEscape (r : List Char) : Option (Char × List Char) :=
  (scanHex4 r).bind (fun p =>
    if 0xD800 ≤ p.1 ∧ p.1 ≤ 0xDBFF then
      (scanUCont p.2).bind (fun q =>
        if 0xDC00 ≤ q.1 ∧ q.1 ≤ 0xDFFF then
          (mkCharQ (0x10000 + (p.1 - 0xD800) * 1024 + (q.1 - 0xDC00))).map
            (fun ch => (ch, q.2))
        else none)
    else (mkCharQ p.1).map (fun ch => (ch, p.2)))

/-- The string-literal scanner of `json.loads` (py_scanstring, strict mode) is
embedded in two layers: `scanUnit` consumes one unit — the closing quote
(`(none, rest)`), one escape sequence, or one plain character (`(some c,
rest)`) — and `scanStrF` iterates it on fuel (one unit consumes at least one
character, so `s.length` fuel always suffices). -/
def scanUnit : List Char → Option (Option Char × List Char)
  | [] => none
  | c :: rest =>
    if c = '"' then some (none, rest)
    else if c = '\\' then
      match rest with
      | [] => none
      | e :: r =>
        if e = '"' then some (some '"', r)
        else if e = '\\' then some (some '\\', r)
        else if e = '/' then some (some '/', r)
        else if e = 'b' then some (some (Char.ofNat 8), r)
        else if e = 'f' then some (some (Char.ofNat 12), r)
        else if e = 'n' then some (some (Char.ofNat 10), r)
        else if e = 'r' then some (some (Char.ofNat 13), r)
        else if e = 't' then some (some (Char.ofNat 9), r)
        else if e = 'u' then (scanUEscape r).map (fun pc => (some pc.1, pc.2))
        else none
    else if 0x20 ≤ c.toNat then some (some c, rest)
    else none

/-- Iterate `scanUnit` until the closing quote, collecting the body. -/
def scanStrF : Nat → List Char → Option (List Char × List Char)
  | 0, _ => none
  | fuel + 1, s =>
    (scanUnit s).bind (fun p =>
      match p.1 with
      | none => some ([], p.2)
      | some ch => (scanStrF fuel p.2).map (fun q => (ch :: q.1, q.2)))

/-- The string-literal scanner: consumes up to and including the closing
quote, returning the decoded body and the remaining input. -/
def scanStr (s : List Char) : Option (List Char × List Char) :=
  scanStrF s.length s

theorem char_not_hi_surrogate (c : Char) :
    ¬ (0xD800 ≤ c.toNat ∧ c.toNat ≤ 0xDBFF) := by
  have hv : c.toNat < 0xD800 ∨ (0xE000 ≤ c.toNat ∧ c.toNat < 0x110000) := c.valid
  omega

theorem scanHex4_toHex4 (v : Nat) (hv : v < 0x10000) (r : List Char) :
    scanHex4 (toHex4 v ++ r) = some (v, r) := by
  rw [show toHex4 v ++ r = hexDig (v / 4096) :: hexDig (v / 256 % 16) ::
    hexDig (v / 16 % 16) :: hexDig (v % 16) :: r from rfl]
  rw [show scanHex4 (hexDig (v / 4096) :: hexDig (v / 256 % 16) ::
      hexDig (v / 16 % 16) :: hexDig (v % 16) :: r) =
    (fromHexDigits (hexDig (v / 4096)) (hexDig (v / 256 % 16))
      (hexDig (v / 16 % 16)) (hexDig (v % 16))).map (fun w => (w, r)) from rfl]
  rw [fromHexDigits_toHex4 _ hv]
  rfl

theorem scanUEscape_bmp (c : Char) (h9 : c.toNat < 0x10000) (t : List Char) :
    scanUEscape (toHex4 c.toNat ++ t) = some (c, t) := by
  rw [scanUEscape, scanHex4_toHex4 _ h9]
  simp only [Option.some_bind]
  rw [if_neg (char_not_hi_surrogate c), mkCharQ_toNat]
  rfl

theorem scanUCont_esc (r2 : List Char) :
    scanUCont ('\\' :: 'u' :: r2) = scanHex4 r2 := rfl

theorem scanUEscape_hi (hi : Nat) (hd8 : 0xD800 <= hi ∧ hi <= 0xDBFF)
    (hlt : hi < 0x10000) (X : List Char) :
    scanUEscape (toHex4 hi ++ X) =
      (scanUCont X).bind (fun q =>
        if 0xDC00 <= q.1 ∧ q.1 <= 0xDFFF then
          (mkCharQ (0x10000 + (hi - 0xD800) * 1024 + (q.1 - 0xDC00))).map
            (fun ch => (ch, q.2))
        else none) := by
  rw [scanUEscape, scanHex4_toHex4 _ hlt]
  simp only [Option.some_bind]
  rw [if_pos hd8]

theorem scanUEscape_lo (c : Char) (h9 : ¬ c.toNat < 0x10000) (t : List Char) :
    (if 0xDC00 <= 0xDC00 + (c.toNat - 0x10000) % 1024 ∧
        0xDC00 + (c.toNat - 0x10000) % 1024 <= 0xDFFF then
      (mkCharQ (0x10000 +
          (0xD800 + (c.toNat - 0x10000) / 1024 - 0xD800) * 1024 +
          (0xDC00 + (c.toNat - 0x10000) % 1024 - 0xDC00))).map
        (fun ch => (ch, t))
    else none) = some (c, t) := by
  have hval : c.toNat < 0xD800 ∨ (0xE000 <= c.toNat ∧ c.toNat < 0x110000) := c.valid
  rw [if_pos (by omega : 0xDC00 <= 0xDC00 + (c.toNat - 0x10000) % 1024 ∧
    0xDC00 + (c.toNat - 0x10000) % 1024 <= 0xDFFF)]
  rw [show 0x10000 + (0xD800 + (c.toNat - 0x10000) / 1024 - 0xD800) * 1024 +
      (0xDC00 + (c.toNat - 0x10000) % 1024 - 0xDC00) = c.toNat by omega]
  rw [mkCharQ_toNat]
  rfl

theorem scanUEscape_astral (c : Char) (h9 : ¬ c.toNat < 0x10000) (t : List Char) :
    scanUEscape (toHex4 (0xD800 + (c.toNat - 0x10000) / 1024) ++
      ('\\' :: 'u' :: (toHex4 (0xDC00 + (c.toNat - 0x10000) % 1024) ++ t))) =
      some (c, t) := by
  have hval : c.toNat < 0xD800 ∨ (0xE000 <= c.toNat ∧ c.toNat < 0x110000) := c.valid
  have hhi : 0xD800 + (c.toNat - 0x10000) / 1024 < 0x10000 := by omega
  have hlo : 0xDC00 + (c.toNat - 0x10000) % 1024 < 0x10000 := by omega
  have e1 := scanUEscape_hi (0xD800 + (c.toNat - 0x10000) / 1024) (by omega) hhi
    ('\\' :: 'u' :: (toHex4 (0xDC00 + (c.toNat - 0x10000) % 1024) ++ t))
  refine e1.trans ?_
  rw [scanUCont_esc, scanHex4_toHex4 _ hlo, Option.some_bind]
  dsimp only
  rw [if_pos (show 0xDC00 <= 0xDC00 + (c.toNat - 0x10000) % 1024 ∧
    0xDC00 + (c.toNat - 0x10000) % 1024 <= 0xDFFF by omega)]
  rw [show 0x10000 + (0xD800 + (c.toNat - 0x10000) / 1024 - 0xD800) * 1024 +
      (0xDC00 + (c.toNat - 0x10000) % 1024 - 0xDC00) = c.toNat by omega]
  rw [mkCharQ_toNat]
  rfl

/-- Consuming the escape of one character yields exactly that character. -/
theorem scanUnit_escChar (c : Char) (t : List Char) :
    scanUnit (escChar c ++ t) = some (some c, t) := by
  by_cases h1 : c = '"'
  · subst h1; rfl
  by_cases h2 : c = '\\'
  · subst h2; rfl
  by_cases h3 : c.toNat = 8
  · have hc : c = Char.ofNat 8 := by rw [← Char.ofNat_toNat c, h3]
    subst hc; rfl
  by_cases h4 : c.toNat = 9
  · have hc : c = Char.ofNat 9 := by rw [← Char.ofNat_toNat c, h4]
    subst hc; rfl
  by_cases h5 : c.toNat = 10
  · have hc : c = Char.ofNat 10 := by rw [← Char.ofNat_toNat c, h5]
    subst hc; rfl
  by_cases h6 : c.toNat = 12
  · have hc : c = Char.ofNat 12 := by rw [← Char.ofNat_toNat c, h6]
    subst hc; rfl
  by_cases h7 : c.toNat = 13
  · have hc : c = Char.ofNat 13 := by rw [← Char.ofNat_toNat c, h7]
    subst hc; rfl
  by_cases h8 : 0x20 ≤ c.toNat ∧ c.toNat ≤ 0x7E
  · rw [show escChar c = [c] by
      simp only [escChar, if_neg h1, if_neg h2, if_neg h3, if_neg h4, if_neg h5,
        if_neg h6, if_neg h7, if_pos h8]]
    rw [List.singleton_append, scanUnit.eq_def]
    simp only [if_neg h1, if_neg h2, if_pos h8.1]
  by_cases h9 : c.toNat < 0x10000
  · rw [show escChar c = '\\' :: 'u' :: toHex4 c.toNat by
      simp only [escChar, if_neg h1, if_neg h2, if_neg h3, if_neg h4, if_neg h5,
        if_neg h6, if_neg h7, if_neg h8, if_pos h9]]
    rw [show ('\\' :: 'u' :: toHex4 c.toNat) ++ t =
      '\\' :: 'u' :: (toHex4 c.toNat ++ t) from rfl]
    rw [show scanUnit ('\\' :: 'u' :: (toHex4 c.toNat ++ t)) =
      (scanUEscape (toHex4 c.toNat ++ t)).map (fun pc => (some pc.1, pc.2))
      from rfl]
    rw [scanUEscape_bmp c h9]
    rfl
  · rw [show escChar c =
        ('\\' :: 'u' :: toHex4 (0xD800 + (c.toNat - 0x10000) / 1024)) ++
        ('\\' :: 'u' :: toHex4 (0xDC00 + (c.toNat - 0x10000) % 1024)) by
      simp only [escChar, if_neg h1, if_neg h2, if_neg h3, if_neg h4, if_neg h5,
        if_neg h6, if_neg h7, if_neg h8, if_neg h9]]
    rw [show (('\\' :: 'u' :: toHex4 (0xD800 + (c.toNat - 0x10000) / 1024)) ++
        ('\\' :: 'u' :: toHex4 (0xDC00 + (c.toNat - 0x10000) % 1024))) ++ t =
      '\\' :: 'u' :: (toHex4 (0xD800 + (c.toNat - 0x10000) / 1024) ++
        ('\\' :: 'u' :: (toHex4 (0xDC00 + (c.toNat - 0x10000) % 1024) ++ t)))
      by simp]
    rw [show scanUnit ('\\' :: 'u' ::
        (toHex4 (0xD800 + (c.toNat - 0x10000) / 1024) ++
          ('\\' :: 'u' :: (toHex4 (0xDC00 + (c.toNat - 0x10000) % 1024) ++ t)))) =
      (scanUEscape (toHex4 (0xD800 + (c.toNat - 0x10000) / 1024) ++
        ('\\' :: 'u' :: (toHex4 (0xDC00 + (c.toNat - 0x10000) % 1024) ++ t)))).map
        (fun pc => (some pc.1, pc.2)) from rfl]
    rw [scanUEscape_astral c h9]
    rfl

theorem scanStrF_cons (fuel : Nat) (s r : List Char) (c : Char)
    (h : scanUnit s = some (some c, r)) :
    scanStrF (fuel + 1) s = (scanStrF fuel r).map (fun q => (c :: q.1, q.2)) := by
  rw [scanStrF, h]
  rfl

theorem scanStrF_close (fuel : Nat) (s r : List Char)
    (h : scanUnit s = some (none, r)) :
    scanStrF (fuel + 1) s = some ([], r) := by
  rw [scanStrF, h]
  rfl

theorem escChar_length_pos (c : Char) : 1 ≤ (escChar c).length := by
  unfold escChar
  repeat' split
  all_goals simp [toHex4]

theorem escStr_length_ge (s : List Char) : s.length ≤ (escStr s).length := by
  induction s with
  | nil => simp [escStr]
  | cons c t ih =>
    have := escChar_length_pos c
    simp only [escStr, List.length_append, List.length_cons]
    omega

theorem scanStrF_escStr (s : List Char) : ∀ fuel rest, s.length < fuel →
    scanStrF fuel (escStr s ++ '"' :: rest) = some (s, rest) := by
  induction s with
  | nil =>
    intro fuel rest h
    cases fuel with
    | zero => omega
    | succ m =>
      exact scanStrF_close m _ rest rfl
  | cons c t ih =>
    intro fuel rest h
    cases fuel with
    | zero => simp at h
    | succ m =>
      rw [show escStr (c :: t) ++ '"' :: rest =
        escChar c ++ (escStr t ++ '"' :: rest) by simp [escStr]]
      rw [scanStrF_cons m _ _ c (scanUnit_escChar c _)]
      rw [ih m rest (by simp at h; omega)]
      rfl

/-- Scanning the escaped body plus closing quote recovers the body. -/
theorem scanStr_escStr (s rest : List Char) :
    scanStr (escStr s ++ '"' :: rest) = some (s, rest) := by
  have hlen : s.length < (escStr s ++ '"' :: rest).length := by
    have := escStr_length_ge s
    simp only [List.length_append, List.length_cons]
    omega
  exact scanStrF_escStr s _ rest hlen

-- ---------------------------------------------------------------------------
-- The state blob: json.dumps({"state": nonce, "user_id": u, "org_id": o})
-- and its decoding (airtable.py lines 59-67 / 122-134, hubspot.py 79-81 /
-- 139-152; notion transports the same JSON URL-quoted instead of base64)
-- ---------------------------------------------------------------------------

/-- The state dictionary: `state` is the CSRF nonce plus the two ids. -/
structure FlowState where
  nonce : String
  user_id : String
  org_id : String
deriving DecidableEq

/-- Literal chunk of the canonical serialization before the nonce. -/
def stateLit1 : List Char := "\x7b\"state\": \"".data

/-- Literal chunk between nonce and user_id. -/
def stateLit2 : List Char := ", \"user_id\": \"".data

/-- Literal chunk between user_id and org_id. -/
def stateLit3 : List Char := ", \"org_id\": \"".data

/-- Closing brace. -/
def stateLit4 : List Char := "\x7d".data

/-- `json.dumps(state_data)` with CPython's default separators, key order as
inserted, `ensure_ascii=True` escaping. -/
def dumpsState (fs : FlowState) : List Char :=
  stateLit1 ++ escStr fs.nonce.data ++ ('"' :: stateLit2) ++
  escStr fs.user_id.data ++ ('"' :: stateLit3) ++
  escStr fs.org_id.data ++ ('"' :: stateLit4)

/-- Consume an expected literal chunk. -/
def expectLit : List Char → List Char → Option (List Char)
  | [], s => some s
  | _ :: _, [] => none
  | l :: ls, c :: cs => if c = l then expectLit ls cs else none

/-- `json.loads` restricted to the canonical image of `dumpsState` (the only
strings the flow itself ever stores or transports). -/
def loadsState (s : List Char) : Option FlowState :=
  (expectLit stateLit1 s).bind (fun s1 =>
  (scanStr s1).bind (fun p1 =>
  (expectLit stateLit2 p1.2).bind (fun s3 =>
  (scanStr s3).bind (fun p2 =>
  (expectLit stateLit3 p2.2).bind (fun s5 =>
  (scanStr s5).bind (fun p3 =>
  if p3.2 = stateLit4 then
    some ⟨String.mk p1.1, String.mk p2.1, String.mk p3.1⟩
  else none))))))

theorem expectLit_append (lit r : List Char) :
    expectLit lit (lit ++ r) = some r := by
  induction lit with
  | nil => rfl
  | cons l ls ih => simp [expectLit, ih]

theorem loadsState_dumpsState (fs : FlowState) :
    loadsState (dumpsState fs) = some fs := by
  have shape : dumpsState fs = stateLit1 ++
      (escStr fs.nonce.data ++ ('"' :: (stateLit2 ++
        (escStr fs.user_id.data ++ ('"' :: (stateLit3 ++
          (escStr fs.org_id.data ++ ('"' :: stateLit4)))))))) := by
    simp [dumpsState, List.append_assoc]
  rw [loadsState, shape, expectLit_append]
  simp only [Option.some_bind]
  rw [scanStr_escStr]
  simp only [Option.some_bind]
  rw [expectLit_append]
  simp only [Option.some_bind]
  rw [scanStr_escStr]
  simp only [Option.some_bind]
  rw [expectLit_append]
  simp only [Option.some_bind]
  rw [scanStr_escStr]
  simp only [Option.some_bind, if_pos rfl]
  rfl

theorem hexDig_mem_ascii (n : Nat) : (hexDig n).toNat < 128 := hexDig_ascii n

theorem escChar_ascii (c : Char) : ∀ d ∈ escChar c, d.toNat < 128 := by
  intro d hd
  by_cases h1 : c = '"'
  · subst h1; fin_cases hd <;> decide
  by_cases h2 : c = '\\'
  · rw [h2] at hd; fin_cases hd <;> decide
  by_cases h3 : c.toNat = 8
  · rw [show escChar c = ['\\', 'b'] by
      simp only [escChar, if_neg h1, if_neg h2, if_pos h3]] at hd
    fin_cases hd <;> decide
  by_cases h4 : c.toNat = 9
  · rw [show escChar c = ['\\', 't'] by
      simp only [escChar, if_neg h1, if_neg h2, if_neg h3, if_pos h4]] at hd
    fin_cases hd <;> decide
  by_cases h5 : c.toNat = 10
  · rw [show escChar c = ['\\', 'n'] by
      simp only [escChar, if_neg h1, if_neg h2, if_neg h3, if_neg h4,
        if_pos h5]] at hd
    fin_cases hd <;> decide
  by_cases h6 : c.toNat = 12
  · rw [show escChar c = ['\\', 'f'] by
      simp only [escChar, if_neg h1, if_neg h2, if_neg h3, if_neg h4, if_neg h5,
        if_pos h6]] at hd
    fin_cases hd <;> decide
  by_cases h7 : c.toNat = 13
  · rw [show escChar c = ['\\', 'r'] by
      simp only [escChar, if_neg h1, if_neg h2, if_neg h3, if_neg h4, if_neg h5,
        if_neg h6, if_pos h7]] at hd
    fin_cases hd <;> decide
  by_cases h8 : 0x20 ≤ c.toNat ∧ c.toNat ≤ 0x7E
  · rw [show escChar c = [c] by
      simp only [escChar, if_neg h1, if_neg h2, if_neg h3, if_neg h4, if_neg h5,
        if_neg h6, if_neg h7, if_pos h8]] at hd
    simp at hd
    subst hd
    omega
  by_cases h9 : c.toNat < 0x10000
  · rw [show escChar c = '\\' :: 'u' :: toHex4 c.toNat by
      simp only [escChar, if_neg h1, if_neg h2, if_neg h3, if_neg h4, if_neg h5,
        if_neg h6, if_neg h7, if_neg h8, if_pos h9]] at hd
    simp [toHex4] at hd
    rcases hd with rfl | rfl | rfl | rfl | rfl | rfl <;>
      first
        | apply hexDig_ascii
        | decide
  · rw [show escChar c =
        ('\\' :: 'u' :: toHex4 (0xD800 + (c.toNat - 0x10000) / 1024)) ++
        ('\\' :: 'u' :: toHex4 (0xDC00 + (c.toNat - 0x10000) % 1024)) by
      simp only [escChar, if_neg h1, if_neg h2, if_neg h3, if_neg h4, if_neg h5,
        if_neg h6, if_neg h7, if_neg h8, if_neg h9]] at hd
    simp [toHex4] at hd
    rcases hd with h | h | h | h | h | h | h | h | h | h | h | h <;>
      rw [h] <;>
      first
        | exact hexDig_ascii _
        | decide

theorem escStr_ascii (s : List Char) : ∀ d ∈ escStr s, d.toNat < 128 := by
  induction s with
  | nil => intro d hd; simp [escStr] at hd
  | cons c t ih =>
    intro d hd
    simp only [escStr, List.mem_append] at hd
    rcases hd with hd | hd
    · exact escChar_ascii c d hd
    · exact ih d hd

theorem dumpsState_ascii (fs : FlowState) :
    ∀ d ∈ dumpsState fs, d.toNat < 128 := by
  intro d hd
  simp only [dumpsState, List.mem_append, List.mem_cons] at hd
  rcases hd with ((((((hd | hd) | hd) | hd) | hd) | hd) | hd)
  · exact (by decide : ∀ x ∈ stateLit1, x.toNat < 128) d hd
  · exact escStr_ascii _ d hd
  · rcases hd with rfl | hd
    · decide
    · exact (by decide : ∀ x ∈ stateLit2, x.toNat < 128) d hd
  · exact escStr_ascii _ d hd
  · rcases hd with rfl | hd
    · decide
    · exact (by decide : ∀ x ∈ stateLit3, x.toNat < 128) d hd
  · exact escStr_ascii _ d hd
  · rcases hd with rfl | hd
    · decide
    · exact (by decide : ∀ x ∈ stateLit4, x.toNat < 128) d hd

theorem utf8Encode_bytes_lt (l : List Char) (h : ∀ c ∈ l, c.toNat < 128) :
    ∀ b ∈ utf8Encode l, b < 256 := by
  rw [utf8Encode_ascii l h]
  intro b hb
  rcases List.mem_map.mp hb with ⟨c, hc, rfl⟩
  have := h c hc
  omega

-- ---------------------------------------------------------------------------
-- The airtable/hubspot state codec: URL-safe base64 over the UTF-8 JSON
-- ---------------------------------------------------------------------------

/-- `base64.urlsafe_b64encode(json.dumps(state_data).encode("utf-8"))`
(airtable.py lines 65-67). -/
def encodeState (fs : FlowState) : String :=
  String.mk (b64encode (utf8Encode (dumpsState fs)))

/-- `json.loads(base64.urlsafe_b64decode(encoded_state).decode("utf-8"))`
(airtable.py lines 122-127). -/
def decodeStateJson (s : String) : Option FlowState :=
  ((b64decode s.data).bind utf8Decode).bind loadsState

/-- State decoding as the airtable callback performs it (lines 122-134):
base64/UTF-8/JSON decode, field extraction, and the non-emptiness check on
`user_id` / `org_id` / `state`. -/
def decodeState (s : String) : Option FlowState :=
  (decodeStateJson s).bind (fun fs =>
    if fs.user_id = "" ∨ fs.org_id = "" ∨ fs.nonce = "" then none else some fs)

theorem decodeStateJson_encodeState (fs : FlowState) :
    decodeStateJson (encodeState fs) = some fs := by
  rw [decodeStateJson,
    show (encodeState fs).data = b64encode (utf8Encode (dumpsState fs)) from rfl]
  rw [b64_roundtrip _ (utf8Encode_bytes_lt _ (dumpsState_ascii fs))]
  simp only [Option.some_bind]
  rw [utf8_roundtrip_ascii _ (dumpsState_ascii fs)]
  simp only [Option.some_bind]
  exact loadsState_dumpsState fs

theorem decodeState_encodeState (fs : FlowState) (h1 : fs.nonce ≠ "")
    (h2 : fs.user_id ≠ "") (h3 : fs.org_id ≠ "") :
    decodeState (encodeState fs) = some fs := by
  rw [decodeState, decodeStateJson_encodeState]
  simp only [Option.some_bind]
  rw [if_neg (by simp [h1, h2, h3])]

-- ---------------------------------------------------------------------------
-- urllib.parse quoting (notion state transport, hubspot urlencode)
-- ---------------------------------------------------------------------------

/-- Bytes urllib never quotes (letters, digits, `_.-~`). -/
def isUnreservedByte (b : Nat) : Bool :=
  (48 ≤ b && b ≤ 57) || (65 ≤ b && b ≤ 90) || (97 ≤ b && b ≤ 122) ||
  b == 95 || b == 46 || b == 45 || b == 126

/-- Percent-escape one byte, uppercase hex. -/
def quoteByte (b : Nat) : List Char := ['%', hexDigU (b / 16), hexDigU (b % 16)]

/-- Quote a byte sequence, keeping unreserved and `safe` bytes. -/
def quoteBytes (safe : String) : List Nat → List Char
  | [] => []
  | b :: t =>
    (if isUnreservedByte b || safe.data.any (fun c => c.toNat == b) then
      [Char.ofNat b]
    else quoteByte b) ++ quoteBytes safe t

/-- `urllib.parse.quote(s, safe)` (UTF-8 bytes, percent-escaping). -/
def pyQuote (safe s : String) : String :=
  String.mk (quoteBytes safe (utf8Encode s.data))

/-- `urllib.parse.quote_plus(s, safe)`: like `quote` but spaces become `+`. -/
def pyQuotePlus (safe s : String) : String :=
  if s.data.any (fun c => c == ' ') then
    String.mk ((pyQuote (safe ++ " ") s).data.map
      (fun c => if c = ' ' then '+' else c))
  else pyQuote safe s

/-- `urllib.parse.urlencode(pairs, safe)`: `k=v` joined by `&`, each side
`quote_plus`-escaped. -/
def urlencodePairs (safe : String) : List (String × String) → String
  | [] => ""
  | [(k, v)] => pyQuotePlus safe k ++ "=" ++ pyQuotePlus safe v
  | (k, v) :: t =>
    pyQuotePlus safe k ++ "=" ++ pyQuotePlus safe v ++ "&" ++
    urlencodePairs safe t

/-- `.replace("+", "%20")` on a URL string. -/
def plusToPct20 : List Char → List Char
  | [] => []
  | c :: t => (if c = '+' then ['%', '2', '0'] else [c]) ++ plusToPct20 t

/-- The byte layer of `urllib.parse.unquote`: percent pairs decode to bytes,
everything else passes through as its UTF-8 bytes. -/
def unquoteBytes : List Char → Option (List Nat)
  | [] => some []
  | '%' :: h1 :: h2 :: rest =>
    if (hexVal h1).isSome ∧ (hexVal h2).isSome then
      (unquoteBytes rest).map
        (fun t => ((hexVal h1).getD 0 * 16 + (hexVal h2).getD 0) :: t)
    else (unquoteBytes (h1 :: h2 :: rest)).map
      (fun t => utf8EncodeChar '%' ++ t)
  | c :: rest => (unquoteBytes rest).map (fun t => utf8EncodeChar c ++ t)

/-- `urllib.parse.unquote` (strict UTF-8 instead of errors="replace"; the
replacement path only arises for inputs the subsequent JSON parse would
reject anyway). -/
def pyUnquote (s : String) : Option String :=
  (unquoteBytes s.data).bind (fun bs => (utf8Decode bs).map String.mk)

-- ---------------------------------------------------------------------------
-- JSON values (for provider API payloads) and normalized items
-- ---------------------------------------------------------------------------

mutual
/-- A parsed JSON value (`json.loads` output) as Python sees it. -/
inductive JVal where
  | null
  | bool (b : Bool)
  | num (n : Int)
  | str (s : String)
  | arr (xs : JList)
  | obj (kvs : JPairs)
/-- Children of a JSON array. -/
inductive JList where
  | nil
  | cons (hd : JVal) (tl : JList)
/-- Members of a JSON object, in insertion order. -/
inductive JPairs where
  | nil
  | cons (key : String) (val : JVal) (tl : JPairs)
end

/-- Python `dict.get(key)`: first binding for the key, if any. -/
def pairsLookup : JPairs → String → Option JVal
  | .nil, _ => none
  | .cons k v t, key => if key = k then some v else pairsLookup t key

/-- Python truthiness of a JSON value. -/
def pyTruthy : JVal → Bool
  | .null => false
  | .bool b => b
  | .num n => n != 0
  | .str s => s != ""
  | .arr .nil => false
  | .arr (.cons _ _) => true
  | .obj .nil => false
  | .obj (.cons _ _ _) => true

mutual
/-- Python `str(value)` (container rendering approximated; no claim under
verification depends on the rendering of non-string values). -/
def jToStr : JVal → String
  | .str s => s
  | .null => "None"
  | .bool b => if b then "True" else "False"
  | .num n => toString n
  | .arr xs => "[" ++ jListRepr xs ++ "]"
  | .obj kvs => "\x7b" ++ jPairsRepr kvs ++ "\x7d"
/-- Render array elements. -/
def jListRepr : JList → String
  | .nil => ""
  | .cons h .nil => jToStr h
  | .cons h t => jToStr h ++ ", " ++ jListRepr t
/-- Render object members. -/
def jPairsRepr : JPairs → String
  | .nil => ""
  | .cons k v .nil => "\x27" ++ k ++ "\x27: " ++ jToStr v
  | .cons k v t => "\x27" ++ k ++ "\x27: " ++ jToStr v ++ ", " ++ jPairsRepr t
end

/-- The normalized resource representation
(backend/integrations/integration_item.py, used by all providers). -/
structure IntegrationItem where
  id : String
  name : Option String
  type : String
  parent_id : Option String := none
  parent_path_or_name : Option String := none
  creation_time : Option String := none
  last_modified_time : Option String := none
  url : Option String := none
deriving DecidableEq

/-- Per-provider client configuration (ENV.*_CLIENT_ID etc.). -/
structure ProviderConfig where
  client_id : String
  client_secret : String
  redirect_uri : String

/-- What the token endpoint's 200 response contains: whether
`"access_token"` is a key of `response.json()`, and the credential blob
`json.dumps(response.json())` that the callback would persist.  `none`
models `response.json()` itself raising. -/
structure TokenPayload where
  hasAccessToken : Bool
  dumped : String

/-- Behaviour of one POST to the token endpoint: a transport error
(`httpx.RequestError`) or a response with status, body text and payload. -/
inductive TokenResult where
  | netErr (msg : String)
  | resp (status : Nat) (body : String) (payload : Option TokenPayload)

-- ---------------------------------------------------------------------------
-- Redis key layout (f-strings / .format patterns in the three modules)
-- ---------------------------------------------------------------------------

/-- Key for the saved airtable state blob. -/
def airtableStateKey (org_id user_id : String) : String :=
  "airtable_state:" ++ org_id ++ ":" ++ user_id

/-- Key for the saved airtable PKCE verifier. -/
def airtableVerifierKey (org_id user_id : String) : String :=
  "airtable_verifier:" ++ org_id ++ ":" ++ user_id

/-- Key for exchanged airtable credentials. -/
def airtableCredKey (org_id user_id : String) : String :=
  "airtable_credentials:" ++ org_id ++ ":" ++ user_id

/-- Key for the saved hubspot state blob. -/
def hubspotStateKey (org_id user_id : String) : String :=
  "hubspot_state:" ++ org_id ++ ":" ++ user_id

/-- Key for the saved hubspot PKCE verifier. -/
def hubspotVerifierKey (org_id user_id : String) : String :=
  "hubspot_verifier:" ++ org_id ++ ":" ++ user_id

/-- Key for the saved notion state blob. -/
def notionStateKey (org_id user_id : String) : String :=
  "notion_state:" ++ org_id ++ ":" ++ user_id

/-- Key for exchanged notion credentials. -/
def notionCredKey (org_id user_id : String) : String :=
  "notion_credentials:" ++ org_id ++ ":" ++ user_id

theorem append_ne_of_ne_at (p1 p2 a b : String) (i : Nat)
    (h1 : i < p1.data.length) (h2 : i < p2.data.length)
    (hne : p1.data[i]? ≠ p2.data[i]?) : p1 ++ a ≠ p2 ++ b := by
  intro h
  have hd := congrArg String.data h
  rw [String.data_append, String.data_append] at hd
  have e1 : (p1.data ++ a.data)[i]? = p1.data[i]? := List.getElem?_append_left h1
  have e2 : (p2.data ++ b.data)[i]? = p2.data[i]? := List.getElem?_append_left h2
  rw [hd] at e1
  exact hne (e1.symm.trans e2)

theorem airtable_keys_ne (org_id user_id : String) :
    airtableStateKey org_id user_id ≠ airtableVerifierKey org_id user_id := by
  unfold airtableStateKey airtableVerifierKey
  simp only [String.append_assoc]
  exact append_ne_of_ne_at _ _ _ _ 9 (by decide) (by decide) (by decide)

theorem hubspot_keys_ne (org_id user_id : String) :
    hubspotStateKey org_id user_id ≠ hubspotVerifierKey org_id user_id := by
  unfold hubspotStateKey hubspotVerifierKey
  simp only [String.append_assoc]
  exact append_ne_of_ne_at _ _ _ _ 8 (by decide) (by decide) (by decide)

-- ---------------------------------------------------------------------------
-- Authorization initiators (authorize_airtable / authorize_hubspot /
-- authorize_notion).  Randomness (secrets.token_urlsafe) appears as the
-- `nonce` / `code_verifier` arguments; the two redis writes of the
-- asyncio.gather may each fail, modelled by the `ok1`/`ok2` oracles (a
-- failed write leaves no binding and the gather re-raises, which the
-- airtable/notion modules do not catch — framework 500 — while hubspot
-- catches it and raises HTTPException 500).
-- ---------------------------------------------------------------------------

/-- Airtable scope string (airtable.py lines 37-41). -/
def airtableScope : String :=
  "data.records:read data.records:write " ++
  "data.recordComments:read data.recordComments:write " ++
  "schema.bases:read schema.bases:write"

/-- HubSpot scope string (hubspot.py line 47). -/
def hubspotScope : String :=
  "crm.objects.contacts.read crm.objects.contacts.write crm.schemas.companies.read oauth"

/-- Airtable PKCE challenge:
`base64.urlsafe_b64encode(sha256(verifier).digest()).decode().replace("=", "")`
(airtable.py lines 70-75). -/
def pkceChallengeAirtable (sha : List Nat → List Nat)
    (code_verifier : String) : String :=
  String.mk ((b64encode (sha (utf8Encode code_verifier.data))).filter
    (fun c => c != '='))

/-- HubSpot PKCE challenge: same digest encoding but `.rstrip("=")`
(hubspot.py lines 84-87). -/
def pkceChallengeHubspot (sha : List Nat → List Nat)
    (code_verifier : String) : String :=
  String.mk (((b64encode (sha (utf8Encode code_verifier.data))).reverse.dropWhile
    (fun c => c == '=')).reverse)

/-- HubSpot's state transport: URL-safe base64 with `.rstrip("=")`
(hubspot.py line 81). -/
def encodeStateHubspot (fs : FlowState) : String :=
  String.mk (((b64encode (utf8Encode (dumpsState fs))).reverse.dropWhile
    (fun c => c == '=')).reverse)

/-- `authorize_airtable(user_id, org_id)` (airtable.py lines 45-95). -/
def authorize_airtable (sha : List Nat → List Nat) (cfg : ProviderConfig)
    (user_id org_id nonce code_verifier : String) (ok1 ok2 : Bool)
    (store : Store) : Except PyErr (String × Store) :=
  if user_id = "" ∨ org_id = "" then
    .error (.http 400 "Missing user_id or org_id")
  else
    let state_json := String.mk (dumpsState ⟨nonce, user_id, org_id⟩)
    let store1 := if ok1 then
      storeSet store (airtableStateKey org_id user_id) state_json else store
    let store2 := if ok2 then
      storeSet store1 (airtableVerifierKey org_id user_id) code_verifier
    else store1
    if ok1 && ok2 then
      .ok ("https://airtable.com/oauth2/v1/authorize?client_id=" ++
        cfg.client_id ++ "&response_type=code&owner=user&redirect_uri=" ++
        cfg.redirect_uri ++ "&state=" ++ encodeState ⟨nonce, user_id, org_id⟩ ++
        "&code_challenge=" ++ pkceChallengeAirtable sha code_verifier ++
        "&code_challenge_method=S256&scope=" ++ airtableScope, store2)
    else .error (.http 500 "Internal Server Error")

/-- `authorize_hubspot(user_id, org_id)` (hubspot.py lines 64-113). -/
def authorize_hubspot (sha : List Nat → List Nat) (cfg : ProviderConfig)
    (user_id org_id nonce code_verifier : String) (ok1 ok2 : Bool)
    (store : Store) : Except PyErr (String × Store) :=
  if user_id = "" ∨ org_id = "" then
    .error (.http 400 "Missing user_id or org_id")
  else
    let state_json := String.mk (dumpsState ⟨nonce, user_id, org_id⟩)
    let store1 := if ok1 then
      storeSet store (hubspotStateKey org_id user_id) state_json else store
    let store2 := if ok2 then
      storeSet store1 (hubspotVerifierKey org_id user_id) code_verifier
    else store1
    if ok1 && ok2 then
      .ok ("https://app.hubspot.com/oauth/authorize?" ++
        String.mk (plusToPct20 (urlencodePairs " "
          [("client_id", cfg.client_id),
           ("redirect_uri", cfg.redirect_uri),
           ("scope", hubspotScope),
           ("state", encodeStateHubspot ⟨nonce, user_id, org_id⟩),
           ("response_type", "code"),
           ("code_challenge", pkceChallengeHubspot sha code_verifier),
           ("code_challenge_method", "S256")]).data), store2)
    else .error (.http 500 "Internal error saving oauth state")

/-- `authorize_notion(user_id, org_id)` (notion.py lines 38-61): no input
validation, no PKCE, a single state record, URL-quoted JSON state. -/
def authorize_notion (cfg : ProviderConfig) (user_id org_id nonce : String)
    (ok1 : Bool) (store : Store) : Except PyErr (String × Store) :=
  let state_json := String.mk (dumpsState ⟨nonce, user_id, org_id⟩)
  let store1 := if ok1 then
    storeSet store (notionStateKey org_id user_id) state_json else store
  if ok1 then
    .ok ("https://api.notion.com/v1/oauth/authorize?client_id=" ++
      cfg.client_id ++ "&response_type=code&owner=user&redirect_uri=" ++
      pyQuote "" cfg.redirect_uri ++ "&state=" ++ pyQuote "/" state_json,
      store1)
  else .error (.http 500 "Internal Server Error")

-- ---------------------------------------------------------------------------
-- Callback exchangers (oauth2callback_airtable / oauth2callback_notion)
-- ---------------------------------------------------------------------------

/-- Query parameters of the provider redirect. -/
structure CbParams where
  error : Option String := none
  error_description : Option String := none
  code : Option String := none
  state : Option String := none

/-- Python truthiness of `request.query_params.get(k)`. -/
def truthyS : Option String → Bool
  | some s => s != ""
  | none => false

/-- The parameter's value (callers only use it under a truthiness guard). -/
def pyGetS (o : Option String) : String := o.getD ""

/-- The popup-closing response body. -/
def closeHtml : String := "<html><script>window.close();</script></html>"

/-- `oauth2callback_airtable(request)` (airtable.py lines 99-186).  The
result is paired with the store state after the handler finishes; the
token-exchange POST and the two deletes run in one `asyncio.gather`, so the
deletes take effect regardless of the exchange outcome. -/
def oauth2callback_airtable (cfg : ProviderConfig) (q : CbParams)
    (tok : TokenResult) (store : Store) : Except PyErr String × Store :=
  if truthyS q.error then
    (.error (.http 400 (if truthyS q.error_description then
      pyGetS q.error_description else pyGetS q.error)), store)
  else if !truthyS q.code || !truthyS q.state then
    (.error (.http 400 "Missing code or state in callback"), store)
  else
    match decodeStateJson (pyGetS q.state) with
    | none => (.error (.http 400 "Invalid state encoding"), store)
    | some raw =>
      if raw.user_id = "" ∨ raw.org_id = "" ∨ raw.nonce = "" then
        (.error (.http 400 "Invalid state data"), store)
      else
        match storeGet store (airtableStateKey raw.org_id raw.user_id),
            storeGet store (airtableVerifierKey raw.org_id raw.user_id) with
        | some sv, some cv =>
          if sv = "" ∨ cv = "" then
            (.error (.http 400 "State verification failed"), store)
          else
            match loadsState sv.data with
            | none => (.error (.http 500 "Internal Server Error"), store)
            | some saved =>
              if raw.nonce ≠ saved.nonce then
                (.error (.http 400 "State verification failed"), store)
              else
                let store2 := storeDel
                  (storeDel store (airtableStateKey raw.org_id raw.user_id))
                  (airtableVerifierKey raw.org_id raw.user_id)
                match tok with
                | .netErr msg =>
                  (.error (.http 502 ("Airtable token request failed: " ++ msg)),
                   store2)
                | .resp status body payload =>
                  if status ≠ 200 then
                    (.error (.http status
                      ("Airtable token exchange failed: " ++ body)), store2)
                  else
                    match payload with
                    | none => (.error (.http 500 "Internal Server Error"), store2)
                    | some pl =>
                      (.ok closeHtml,
                       storeSet store2 (airtableCredKey raw.org_id raw.user_id)
                         pl.dumped)
        | _, _ => (.error (.http 400 "State verification failed"), store)

/-- `oauth2callback_notion(request)` (notion.py lines 64-151): state is
URL-quoted JSON, there is no PKCE verifier, the single state record is
deleted alongside the exchange, a non-200 exchange raises with the upstream
status but a fixed detail, and the response's `access_token` presence is
checked before persisting. -/
def oauth2callback_notion (cfg : ProviderConfig) (q : CbParams)
    (tok : TokenResult) (store : Store) : Except PyErr String × Store :=
  if truthyS q.error then
    (.error (.http 400 (match q.error_description with
      | some d => d
      | none => "OAuth error")), store)
  else if !truthyS q.code || !truthyS q.state then
    (.error (.http 400 "Missing code or state parameter."), store)
  else
    match (pyUnquote (pyGetS q.state)).bind (fun t => loadsState t.data) with
    | none => (.error (.http 400 "Invalid state parameter."), store)
    | some raw =>
      if raw.nonce = "" ∨ raw.user_id = "" ∨ raw.org_id = "" then
        (.error (.http 400 "Incomplete state data."), store)
      else
        match storeGet store (notionStateKey raw.org_id raw.user_id) with
        | none => (.error (.http 400 "State not found in Redis."), store)
        | some sv =>
          if sv = "" then
            (.error (.http 400 "State not found in Redis."), store)
          else
            match loadsState sv.data with
            | none => (.error (.http 500 "Corrupted state in Redis."), store)
            | some saved =>
              if raw.nonce ≠ saved.nonce then
                (.error (.http 400 "State mismatch detected."), store)
              else
                let store2 :=
                  storeDel store (notionStateKey raw.org_id raw.user_id)
                match tok with
                | .netErr msg =>
                  (.error (.http 500 "Internal Server Error"), store2)
                | .resp status body payload =>
                  if status ≠ 200 then
                    (.error (.http status "Token exchange failed."), store2)
                  else
                    match payload with
                    | none => (.error (.http 500 "Internal Server Error"), store2)
                    | some pl =>
                      if !pl.hasAccessToken then
                        (.error (.http 400 "No access token in response."),
                         store2)
                      else
                        (.ok closeHtml,
                         storeSet store2 (notionCredKey raw.org_id raw.user_id)
                           pl.dumped)

-- ---------------------------------------------------------------------------
-- Credential retrievers (get_airtable_credentials / get_notion_credentials).
-- `json.loads` of the stored blob is the abstract parser argument `parse`.
-- ---------------------------------------------------------------------------

/-- `get_airtable_credentials(user_id, org_id)` (airtable.py lines 190-210):
absent record → 404; present → delete first, then parse; a parse failure
(corrupted record) raises 500 after the record is already gone. -/
def get_airtable_credentials (parse : String → Option JVal)
    (user_id org_id : String) (store : Store) :
    Except PyErr JVal × Store :=
  match storeGet store (airtableCredKey org_id user_id) with
  | none => (.error (.http 404 "No Airtable credentials found"), store)
  | some v =>
    if v = "" then (.error (.http 404 "No Airtable credentials found"), store)
    else
      let store2 := storeDel store (airtableCredKey org_id user_id)
      match parse v with
      | some j => (.ok j, store2)
      | none => (.error (.http 500 "Corrupted Airtable credentials"), store2)

/-- `get_notion_credentials(user_id, org_id)` (notion.py lines 154-178):
absent record → 400; present → parse first (a parse failure raises 500 and
leaves the record in place), then delete and return. -/
def get_notion_credentials (parse : String → Option JVal)
    (user_id org_id : String) (store : Store) :
    Except PyErr JVal × Store :=
  match storeGet store (notionCredKey org_id user_id) with
  | none => (.error (.http 400 "No credentials found."), store)
  | some v =>
    if v = "" then (.error (.http 400 "No credentials found."), store)
    else
      match parse v with
      | none => (.error (.http 500 "Invalid credentials format."), store)
      | some j => (.ok j, storeDel store (notionCredKey org_id user_id))

-- ---------------------------------------------------------------------------
-- Recursive dict search (notion.py lines 181-204) and its spec-side
-- counterpart
-- ---------------------------------------------------------------------------

/-- Collapse a JSON value to what the Python function returns for it:
`data[target_key]` being JSON `null` is Python `None`, indistinguishable
from "not found" for every caller. -/
def pyOpt : JVal → Option JVal
  | .null => none
  | v => some v

mutual
/-- `_recursive_dict_search(data, target_key)`: own keys first (returning
`data[target_key]` even when that value is null, i.e. `None`), then the
values in order, then list elements in order; a `None` result makes the
caller continue with later siblings. -/
def recursive_dict_search : JVal → String → Option JVal
  | .obj kvs, key =>
    match pairsLookup kvs key with
    | some v => pyOpt v
    | none => rdsPairs kvs key
  | .arr xs, key => rdsList xs key
  | _, _ => none
/-- Search the values of an object, first hit wins. -/
def rdsPairs : JPairs → String → Option JVal
  | .nil, _ => none
  | .cons _ v t, key =>
    match recursive_dict_search v key with
    | some r => some r
    | none => rdsPairs t key
/-- Search the elements of an array, first hit wins. -/
def rdsList : JList → String → Option JVal
  | .nil, _ => none
  | .cons x xs, key =>
    match recursive_dict_search x key with
    | some r => some r
    | none => rdsList xs key
end

mutual
/-- Modelled from the spec: the value of the first occurrence of the target
key in depth-first order, checking a dict's own keys before descending into
its values and visiting list elements in order (`first-match-wins semantics
... depth-first, dict keys before list elements, first hit returned`).  The
found value is returned as-is, null included. -/
def firstOccSpec : JVal → String → Option JVal
  | .obj kvs, key =>
    match pairsLookup kvs key with
    | some v => some v
    | none => firstOccPairs kvs key
  | .arr xs, key => firstOccList xs key
  | _, _ => none
/-- First occurrence among an object's values. -/
def firstOccPairs : JPairs → String → Option JVal
  | .nil, _ => none
  | .cons _ v t, key =>
    match firstOccSpec v key with
    | some r => some r
    | none => firstOccPairs t key
/-- First occurrence among an array's elements. -/
def firstOccList : JList → String → Option JVal
  | .nil, _ => none
  | .cons x xs, key =>
    match firstOccSpec x key with
    | some r => some r
    | none => firstOccList xs key
end

-- ---------------------------------------------------------------------------
-- Item normalizers (create_integration_item_metadata_object of hubspot.py
-- and notion.py).  They return `none` exactly where the Python code raises
-- (callers catch per item); Python values that land in string-typed fields
-- pass through `jToStr`.
-- ---------------------------------------------------------------------------

/-- Python `str.isspace` characters handled by `str.strip()` (the ASCII
ones; none of the modelled payload fields carry exotic whitespace). -/
def pyIsSpace (c : Char) : Bool :=
  c = ' ' || c = '\t' || c = '\n' || c = '\r' ||
    c.toNat = 11 || c.toNat = 12

/-- Python `s.strip()` with no argument. -/
def pyStrip (s : String) : String :=
  String.mk (((s.data.dropWhile pyIsSpace).reverse.dropWhile
    pyIsSpace).reverse)

/-- HubSpot contact normalizer (hubspot.py lines 271-301).  Raises (= `none`)
when the contact is not a dict or its truthy `properties` is not a dict. -/
def hs_create_item (response_json : JVal) : Option IntegrationItem :=
  match response_json with
  | .obj kvs =>
    let propsRaw := (pairsLookup kvs "properties").getD .null
    let props := if pyTruthy propsRaw then propsRaw else .obj .nil
    match props with
    | .obj pkvs =>
      let firstname := (pairsLookup pkvs "firstname").getD (.str "")
      let lastname := (pairsLookup pkvs "lastname").getD (.str "")
      let email := (pairsLookup pkvs "email").getD (.str "")
      let composed := pyStrip (jToStr firstname ++ " " ++ jToStr lastname)
      let name := if composed ≠ "" then composed
        else if pyTruthy email then jToStr email else "Unnamed Contact"
      some { id := jToStr ((pairsLookup kvs "id").getD .null),
             name := some name,
             type := "Contact",
             creation_time :=
               (pyOpt ((pairsLookup pkvs "createdate").getD .null)).map jToStr,
             last_modified_time :=
               (pyOpt ((pairsLookup pkvs "lastmodifieddate").getD .null)).map
                 jToStr }
    | _ => none
  | _ => none

/-- Notion object normalizer (notion.py lines 207-249).  Raises (= `none`)
when the object is not a dict, its present `parent` is not a dict, or the
parent `type` is an unhashable value. -/
def notion_create_item (response_json : JVal) : Option IntegrationItem :=
  match response_json with
  | .obj kvs =>
    let properties := (pairsLookup kvs "properties").getD (.obj .nil)
    let name0 := recursive_dict_search properties "content"
    match (pairsLookup kvs "parent").getD (.obj .nil) with
    | .obj pkvs =>
      match (pairsLookup pkvs "type").getD (.str "") with
      | .arr _ => none
      | .obj _ => none
      | ptv =>
        let parent_id : Option String :=
          match ptv with
          | .str t =>
            if t = "workspace" then none
            else (pyOpt ((pairsLookup pkvs t).getD .null)).map jToStr
          | _ => none
        let nameVal : Option JVal :=
          match name0 with
          | some v => some v
          | none =>
            match recursive_dict_search (.obj kvs) "content" with
            | some v2 =>
              if pyTruthy v2 then some v2
              else some ((pairsLookup kvs "object").getD (.str "Unknown"))
            | none => some ((pairsLookup kvs "object").getD (.str "Unknown"))
        let name : Option String :=
          match nameVal with
          | some (.arr (.cons x _)) =>
            match x with
            | .obj xkvs =>
              (pyOpt ((pairsLookup xkvs "plain_text").getD
                (.str "Untitled"))).map jToStr
            | _ => some (jToStr x)
          | some (.str s) => some s
          | _ => some "Untitled"
        some { id := jToStr ((pairsLookup kvs "id").getD .null),
               name := name,
               type := jToStr ((pairsLookup kvs "object").getD (.str "unknown")),
               parent_id := parent_id,
               parent_path_or_name := none,
               creation_time :=
                 (pyOpt ((pairsLookup kvs "created_time").getD .null)).map jToStr,
               last_modified_time :=
                 (pyOpt ((pairsLookup kvs "last_edited_time").getD .null)).map
                   jToStr,
               url := (pyOpt ((pairsLookup kvs "url").getD .null)).map jToStr }
    | _ => none
  | _ => none

-- ---------------------------------------------------------------------------
-- Item fetchers.  A paginated listing endpoint appears as the list of the
-- successive page responses the loop would receive; running past the end of
-- that list is outside the modelled behaviour and yields a sentinel error.
-- ---------------------------------------------------------------------------

/-- One response of Airtable's bases listing endpoint. -/
structure AirtablePage where
  status : Nat
  text : String
  bases : List JVal
  offset : Option String

/-- `fetch_items(access_token, url, aggregated_response, offset)`
(airtable.py lines 243-275): non-200 aborts with the upstream status;
otherwise the page's `bases` are appended and the fetch recurses while the
response carries a truthy `offset`. -/
def fetch_items : List AirtablePage → List JVal → Except PyErr (List JVal)
  | [], _ => .error (.http 599 "no further oracle response")
  | p :: ps, aggregated =>
    if p.status ≠ 200 then
      .error (.http p.status ("Airtable API request failed: " ++ p.text))
    else
      let aggregated2 := aggregated ++ p.bases
      match p.offset with
      | some o => if o ≠ "" then fetch_items ps aggregated2 else .ok aggregated2
      | none => .ok aggregated2

/-- One response of HubSpot's contacts listing endpoint;
`after` is `data.get("paging", \x7b\x7d).get("next", \x7b\x7d).get("after")`. -/
structure HsPage where
  status : Nat
  text : String
  results : List JVal
  after : Option String

/-- The `while more` pagination loop of `get_items_hubspot`
(hubspot.py lines 332-365): 403 → HTTPException 403, other non-200 →
HTTPException 502 carrying the upstream status in the detail; per-item
normalization failures are skipped (`filterMap`); the loop continues while
`after` is truthy. -/
def hubspotLoop : List HsPage → List IntegrationItem →
    Except PyErr (List IntegrationItem)
  | [], _ => .error (.http 599 "no further oracle response")
  | p :: ps, items =>
    if p.status = 403 then
      .error (.http 403 "Missing required HubSpot scopes")
    else if p.status ≠ 200 then
      .error (.http 502 ("HubSpot API error: " ++ toString p.status))
    else
      let items2 := items ++ p.results.filterMap hs_create_item
      match p.after with
      | some a => if a ≠ "" then hubspotLoop ps items2 else .ok items2
      | none => .ok items2

/-- `get_items_hubspot(credentials)` (hubspot.py lines 307-381), with the
credentials already parsed to a JSON value; `netFail` models an
`httpx.RequestError` (→ 502). -/
def get_items_hubspot (credentials : JVal) (netFail : Bool)
    (pages : List HsPage) : Except PyErr (List IntegrationItem) :=
  match credentials with
  | .obj kvs =>
    if !pyTruthy ((pairsLookup kvs "access_token").getD .null) then
      .error (.http 400 "Missing access_token in credentials")
    else if netFail then
      .error (.http 502 "Network error calling HubSpot API")
    else hubspotLoop pages []
  | _ => .error (.http 500 "Internal Server Error")

/-- The single response of Notion's search endpoint. -/
structure NotionResp where
  netFail : Bool
  status : Nat
  text : String
  results : List JVal

/-- `get_items_notion(credentials)` (notion.py lines 252-309): a missing
token raises `ValueError`; any request exception and any non-200 response
are swallowed (printed) and an empty list is returned; per-item
normalization failures are skipped. -/
def get_items_notion (credentials : JVal) (r : NotionResp) :
    Except PyErr (List IntegrationItem) :=
  match credentials with
  | .obj kvs =>
    if !pyTruthy ((pairsLookup kvs "access_token").getD .null) then
      .error (.valueError "No access token found in credentials.")
    else if r.netFail then .ok []
    else if r.status ≠ 200 then .ok []
    else .ok (r.results.filterMap notion_create_item)
  | _ => .error (.http 500 "Internal Server Error")

/-- Well-formed page sequence: every page 200, every page but the last
carries a truthy next-page marker, the last carries none. -/
def wellPagedA : List AirtablePage → Bool
  | [] => false
  | p :: ps =>
    p.status == 200 &&
      match p.offset, ps with
      | none, [] => true
      | some o, [] => o == ""
      | some o, _ :: _ => o != "" && wellPagedA ps
      | none, _ :: _ => false

/-- Same for the HubSpot `after` cursor. -/
def wellPagedH : List HsPage → Bool
  | [] => false
  | p :: ps =>
    p.status == 200 &&
      match p.after, ps with
      | none, [] => true
      | some a, [] => a == ""
      | some a, _ :: _ => a != "" && wellPagedH ps
      | none, _ :: _ => false

theorem fetch_items_concat (ps : List AirtablePage) :
    ∀ acc, wellPagedA ps = true →
      fetch_items ps acc = .ok (acc ++ joinL (ps.map AirtablePage.bases)) := by
  induction ps with
  | nil => intro acc h; simp [wellPagedA] at h
  | cons p t ih =>
    intro acc h
    simp only [wellPagedA, Bool.and_eq_true, beq_iff_eq] at h
    obtain ⟨h200, hrest⟩ := h
    rw [fetch_items, if_neg (by simp [h200])]
    rcases ho : p.offset with _ | o <;> rcases ht : t with _ | ⟨q, t2⟩ <;>
      rw [ho, ht] at hrest <;> simp only [] at hrest
    · simp [joinL]
    · exact absurd hrest (by simp)
    · simp [joinL, show o = "" from by simpa using hrest]
    · simp only [Bool.and_eq_true, bne_iff_ne] at hrest
      subst ht
      dsimp only
      rw [if_pos hrest.1, ih _ hrest.2]
      simp [joinL, List.map_cons]

theorem hubspotLoop_concat (ps : List HsPage) :
    ∀ items, wellPagedH ps = true →
      hubspotLoop ps items = .ok (items ++
        joinL (ps.map (fun p => p.results.filterMap hs_create_item))) := by
  induction ps with
  | nil => intro items h; simp [wellPagedH] at h
  | cons p t ih =>
    intro items h
    simp only [wellPagedH, Bool.and_eq_true, beq_iff_eq] at h
    obtain ⟨h200, hrest⟩ := h
    rw [hubspotLoop, if_neg (by simp [h200]), if_neg (by simp [h200])]
    rcases ha : p.after with _ | a <;> rcases ht : t with _ | ⟨q, t2⟩ <;>
      rw [ha, ht] at hrest <;> simp only [] at hrest
    · simp [joinL]
    · exact absurd hrest (by simp)
    · simp [joinL, show a = "" from by simpa using hrest]
    · simp only [Bool.and_eq_true, bne_iff_ne] at hrest
      subst ht
      dsimp only
      rw [if_pos hrest.1, ih _ hrest.2]
      simp [joinL, List.map_cons]

theorem rds_obj_found (kvs : JPairs) (k : String) (v : JVal)
    (h : pairsLookup kvs k = some v) :
    recursive_dict_search (.obj kvs) k = pyOpt v := by
  rw [show recursive_dict_search (.obj kvs) k =
    (match pairsLookup kvs k with
     | some v => pyOpt v
     | none => rdsPairs kvs k) from rfl, h]

theorem rds_obj_missing (kvs : JPairs) (k : String)
    (h : pairsLookup kvs k = none) :
    recursive_dict_search (.obj kvs) k = rdsPairs kvs k := by
  rw [show recursive_dict_search (.obj kvs) k =
    (match pairsLookup kvs k with
     | some v => pyOpt v
     | none => rdsPairs kvs k) from rfl, h]

theorem rdsPairs_cons_hit (key : String) (v : JVal) (t : JPairs) (k : String)
    (r : JVal) (h : recursive_dict_search v k = some r) :
    rdsPairs (.cons key v t) k = some r := by
  rw [show rdsPairs (.cons key v t) k =
    (match recursive_dict_search v k with
     | some r => some r
     | none => rdsPairs t k) from rfl, h]

theorem rdsPairs_cons_miss (key : String) (v : JVal) (t : JPairs) (k : String)
    (h : recursive_dict_search v k = none) :
    rdsPairs (.cons key v t) k = rdsPairs t k := by
  rw [show rdsPairs (.cons key v t) k =
    (match recursive_dict_search v k with
     | some r => some r
     | none => rdsPairs t k) from rfl, h]

theorem rdsList_cons_hit (x : JVal) (xs : JList) (k : String) (r : JVal)
    (h : recursive_dict_search x k = some r) :
    rdsList (.cons x xs) k = some r := by
  rw [show rdsList (.cons x xs) k =
    (match recursive_dict_search x k with
     | some r => some r
     | none => rdsList xs k) from rfl, h]

theorem rdsList_cons_miss (x : JVal) (xs : JList) (k : String)
    (h : recursive_dict_search x k = none) :
    rdsList (.cons x xs) k = rdsList xs k := by
  rw [show rdsList (.cons x xs) k =
    (match recursive_dict_search x k with
     | some r => some r
     | none => rdsList xs k) from rfl, h]

theorem firstOcc_obj_found (kvs : JPairs) (k : String) (v : JVal)
    (h : pairsLookup kvs k = some v) :
    firstOccSpec (.obj kvs) k = some v := by
  rw [show firstOccSpec (.obj kvs) k =
    (match pairsLookup kvs k with
     | some v => some v
     | none => firstOccPairs kvs k) from rfl, h]

theorem firstOcc_obj_missing (kvs : JPairs) (k : String)
    (h : pairsLookup kvs k = none) :
    firstOccSpec (.obj kvs) k = firstOccPairs kvs k := by
  rw [show firstOccSpec (.obj kvs) k =
    (match pairsLookup kvs k with
     | some v => some v
     | none => firstOccPairs kvs k) from rfl, h]

theorem firstOccPairs_cons_hit (key : String) (v : JVal) (t : JPairs)
    (k : String) (r : JVal) (h : firstOccSpec v k = some r) :
    firstOccPairs (.cons key v t) k = some r := by
  rw [show firstOccPairs (.cons key v t) k =
    (match firstOccSpec v k with
     | some r => some r
     | none => firstOccPairs t k) from rfl, h]

theorem firstOccPairs_cons_miss (key : String) (v : JVal) (t : JPairs)
    (k : String) (h : firstOccSpec v k = none) :
    firstOccPairs (.cons key v t) k = firstOccPairs t k := by
  rw [show firstOccPairs (.cons key v t) k =
    (match firstOccSpec v k with
     | some r => some r
     | none => firstOccPairs t k) from rfl, h]

theorem firstOccList_cons_hit (x : JVal) (xs : JList) (k : String) (r : JVal)
    (h : firstOccSpec x k = some r) :
    firstOccList (.cons x xs) k = some r := by
  rw [show firstOccList (.cons x xs) k =
    (match firstOccSpec x k with
     | some r => some r
     | none => firstOccList xs k) from rfl, h]

theorem firstOccList_cons_miss (x : JVal) (xs : JList) (k : String)
    (h : firstOccSpec x k = none) :
    firstOccList (.cons x xs) k = firstOccList xs k := by
  rw [show firstOccList (.cons x xs) k =
    (match firstOccSpec x k with
     | some r => some r
     | none => firstOccList xs k) from rfl, h]

theorem rds_agrees_with_spec : ∀ d : JVal, ∀ k : String,
    (firstOccSpec d k = none → recursive_dict_search d k = none) ∧
    (∀ v, firstOccSpec d k = some v → v ≠ JVal.null →
      recursive_dict_search d k = some v) := by
  refine @JVal.rec
    (fun d => ∀ k, (firstOccSpec d k = none → recursive_dict_search d k = none) ∧
      (∀ v, firstOccSpec d k = some v → v ≠ JVal.null →
        recursive_dict_search d k = some v))
    (fun xs => ∀ k, (firstOccList xs k = none → rdsList xs k = none) ∧
      (∀ v, firstOccList xs k = some v → v ≠ JVal.null →
        rdsList xs k = some v))
    (fun kvs => ∀ k, (firstOccPairs kvs k = none → rdsPairs kvs k = none) ∧
      (∀ v, firstOccPairs kvs k = some v → v ≠ JVal.null →
        rdsPairs kvs k = some v))
    ?_ ?_ ?_ ?_ ?_ ?_ ?_ ?_ ?_ ?_
  · intro k
    exact ⟨fun _ => rfl, fun v hv _ => by exact Option.noConfusion hv⟩
  · intro b k
    exact ⟨fun _ => rfl, fun v hv _ => by exact Option.noConfusion hv⟩
  · intro n k
    exact ⟨fun _ => rfl, fun v hv _ => by exact Option.noConfusion hv⟩
  · intro s k
    exact ⟨fun _ => rfl, fun v hv _ => by exact Option.noConfusion hv⟩
  · intro xs ihl k
    constructor
    · intro h
      rw [show firstOccSpec (.arr xs) k = firstOccList xs k from rfl] at h
      rw [show recursive_dict_search (.arr xs) k = rdsList xs k from rfl]
      exact (ihl k).1 h
    · intro v hv hnull
      rw [show firstOccSpec (.arr xs) k = firstOccList xs k from rfl] at hv
      rw [show recursive_dict_search (.arr xs) k = rdsList xs k from rfl]
      exact (ihl k).2 v hv hnull
  · intro kvs ihp k
    rcases hlk : pairsLookup kvs k with _ | w
    · constructor
      · intro h
        rw [firstOcc_obj_missing kvs k hlk] at h
        rw [rds_obj_missing kvs k hlk]
        exact (ihp k).1 h
      · intro v hv hnull
        rw [firstOcc_obj_missing kvs k hlk] at hv
        rw [rds_obj_missing kvs k hlk]
        exact (ihp k).2 v hv hnull
    · constructor
      · intro h
        rw [firstOcc_obj_found kvs k w hlk] at h
        exact Option.noConfusion h
      · intro v hv hnull
        rw [firstOcc_obj_found kvs k w hlk] at hv
        have hw : w = v := Option.some.inj hv
        subst hw
        rw [rds_obj_found kvs k w hlk]
        cases w with
        | null => exact absurd rfl hnull
        | bool b => rfl
        | num n => rfl
        | str s => rfl
        | arr xs => rfl
        | obj kvs2 => rfl
  · intro k
    exact ⟨fun _ => rfl, fun v hv _ => by exact Option.noConfusion hv⟩
  · intro hd tl ihv ihl k
    rcases hh : firstOccSpec hd k with _ | w
    · constructor
      · intro h
        rw [firstOccList_cons_miss hd tl k hh] at h
        rw [rdsList_cons_miss hd tl k ((ihv k).1 hh)]
        exact (ihl k).1 h
      · intro v hv hnull
        rw [firstOccList_cons_miss hd tl k hh] at hv
        rw [rdsList_cons_miss hd tl k ((ihv k).1 hh)]
        exact (ihl k).2 v hv hnull
    · constructor
      · intro h
        rw [firstOccList_cons_hit hd tl k w hh] at h
        exact Option.noConfusion h
      · intro v hv hnull
        rw [firstOccList_cons_hit hd tl k w hh] at hv
        have hw : w = v := Option.some.inj hv
        subst hw
        exact rdsList_cons_hit hd tl k w ((ihv k).2 w hh hnull)
  · intro k
    exact ⟨fun _ => rfl, fun v hv _ => by exact Option.noConfusion hv⟩
  · intro key val tl ihv ihp k
    rcases hh : firstOccSpec val k with _ | w
    · constructor
      · intro h
        rw [firstOccPairs_cons_miss key val tl k hh] at h
        rw [rdsPairs_cons_miss key val tl k ((ihv k).1 hh)]
        exact (ihp k).1 h
      · intro v hv hnull
        rw [firstOccPairs_cons_miss key val tl k hh] at hv
        rw [rdsPairs_cons_miss key val tl k ((ihv k).1 hh)]
        exact (ihp k).2 v hv hnull
    · constructor
      · intro h
        rw [firstOccPairs_cons_hit key val tl k w hh] at h
        exact Option.noConfusion h
      · intro v hv hnull
        rw [firstOccPairs_cons_hit key val tl k w hh] at hv
        have hw : w = v := Option.some.inj hv
        subst hw
        exact rdsPairs_cons_hit key val tl k w ((ihv k).2 w hh hnull)

theorem isPrefixOf_extend (p : List Char) : ∀ l y : List Char,
    p.isPrefixOf l = true → p.isPrefixOf (l ++ y) = true := by
  induction p with
  | nil => intro l y _; simp [List.isPrefixOf]
  | cons c t ih =>
    intro l y h
    cases l with
    | nil => simp [List.isPrefixOf] at h
    | cons a as =>
      simp only [List.isPrefixOf, Bool.and_eq_true] at h ⊢
      exact ⟨h.1, ih as y h.2⟩

theorem listContainsSub_isNil (p : List Char) (h : p.isPrefixOf [] = true) :
    p = [] := by
  cases p with
  | nil => rfl
  | cons c t => simp [List.isPrefixOf] at h

theorem listContainsSub_extend (p : List Char) : ∀ x y : List Char,
    listContainsSub p x = true → listContainsSub p (x ++ y) = true := by
  intro x
  induction x with
  | nil =>
    intro y h
    simp only [listContainsSub] at h
    rw [listContainsSub_isNil p h]
    cases y with
    | nil => simp [listContainsSub, List.isPrefixOf]
    | cons c t => simp [listContainsSub, List.isPrefixOf]
  | cons c t ih =>
    intro y h
    simp only [listContainsSub, Bool.or_eq_true] at h ⊢
    rcases h with h | h
    · exact Or.inl (isPrefixOf_extend p _ y h)
    · exact Or.inr (ih y h)

theorem listContainsSub_prepend (p : List Char) : ∀ x y : List Char,
    listContainsSub p y = true → listContainsSub p (x ++ y) = true := by
  intro x
  induction x with
  | nil => intro y h; simpa using h
  | cons c t ih =>
    intro y h
    simp only [List.cons_append, listContainsSub, Bool.or_eq_true]
    exact Or.inr (ih y h)

/-- Containment survives appending on the right. -/
theorem containsSub_append_left (s t pat : String)
    (h : containsSub s pat = true) : containsSub (s ++ t) pat = true := by
  rw [containsSub, String.data_append]
  exact listContainsSub_extend pat.data s.data t.data h

/-- Containment survives prepending on the left. -/
theorem containsSub_append_right (s t pat : String)
    (h : containsSub t pat = true) : containsSub (s ++ t) pat = true := by
  rw [containsSub, String.data_append]
  exact listContainsSub_prepend pat.data s.data t.data h

/-- A string contains itself. -/
theorem containsSub_self (pat : String) : containsSub pat pat = true := by
  rw [containsSub]
  apply listContainsSub_of_prefix
  have := isPrefixOf_append_self pat.data []
  simpa using this

-- ---------------------------------------------------------------------------
-- Projections of an authorize result (used to state concrete instances)
-- ---------------------------------------------------------------------------

/-- The URL of a successful authorize result. -/
def resUrl (r : Except PyErr (String × Store)) : String :=
  match r with
  | .ok p => p.1
  | .error _ => ""

/-- The store of a successful authorize result. -/
def resStore (r : Except PyErr (String × Store)) : Store :=
  match r with
  | .ok p => p.2
  | .error _ => []

/-- Whether an authorize call succeeded. -/
def isOkRes (r : Except PyErr (String × Store)) : Bool :=
  match r with
  | .ok _ => true
  | .error _ => false

-- ---------------------------------------------------------------------------
-- The claims
-- ---------------------------------------------------------------------------

/-- Claim C2: for every valid `FlowState` (non-empty nonce, user_id and
org_id), decoding the string produced by the state encoder yields exactly
the original state: `decodeState (encodeState fs) = some fs`. -/
theorem C2_theorem (fs : FlowState) (h1 : fs.nonce ≠ "") (h2 : fs.user_id ≠ "")
    (h3 : fs.org_id ≠ "") : decodeState (encodeState fs) = some fs :=
  decodeState_encodeState fs h1 h2 h3

/-- C2 witness: the round trip at a concrete state. -/
theorem C2_witness :
    decodeState (encodeState ⟨"nA", "uB", "oC"⟩) = some ⟨"nA", "uB", "oC"⟩ :=
  C2_theorem ⟨"nA", "uB", "oC"⟩ (by decide) (by decide) (by decide)

/-- Claim C9 (amended): the recursive search agrees with first-occurrence
depth-first semantics whenever the first occurrence's value is not JSON
`null`; a `null`-valued first occurrence is skipped by the code (a `None`
return is indistinguishable from "not found", so the search continues),
while a key with no occurrence at all yields `none`. -/
theorem C9_theorem : ∀ (d : JVal) (k : String),
    (firstOccSpec d k = none → recursive_dict_search d k = none) ∧
    (∀ v, firstOccSpec d k = some v → v ≠ JVal.null →
      recursive_dict_search d k = some v) :=
  rds_agrees_with_spec

/-- C9 counterexample: a `null`-valued first occurrence is skipped and a
later occurrence is returned, contradicting first-match-wins. -/
theorem C9_counterexample :
    firstOccSpec (JVal.arr (.cons (.obj (.cons "k" .null .nil))
        (.cons (.obj (.cons "k" (.num 1) .nil)) .nil))) "k" = some JVal.null ∧
    recursive_dict_search (JVal.arr (.cons (.obj (.cons "k" .null .nil))
        (.cons (.obj (.cons "k" (.num 1) .nil)) .nil))) "k" =
      some (JVal.num 1) :=
  ⟨rfl, rfl⟩

/-- C9 witness: the amended agreement at a concrete non-null hit. -/
theorem C9_witness :
    recursive_dict_search (JVal.obj (.cons "a" (.str "x") .nil)) "a" =
      some (JVal.str "x") :=
  (C9_theorem (JVal.obj (.cons "a" (.str "x") .nil)) "a").2
    (JVal.str "x") rfl (fun h => JVal.noConfusion h)

/-- Claim C10: when a stored Airtable credentials record exists but is
corrupted (the parse fails), the call errors with 500 yet has already
deleted the record, and a subsequent call yields the 404 NotFound error:
the corrupted-record error is not atomic with respect to the store. -/
theorem C10_theorem (parse : String → Option JVal) (user_id org_id : String)
    (store : Store) (v : String)
    (hv : storeGet store (airtableCredKey org_id user_id) = some v)
    (hne : v ≠ "") (hbad : parse v = none) :
    get_airtable_credentials parse user_id org_id store =
      (.error (.http 500 "Corrupted Airtable credentials"),
       storeDel store (airtableCredKey org_id user_id)) ∧
    (get_airtable_credentials parse user_id org_id
        (storeDel store (airtableCredKey org_id user_id))).1 =
      .error (.http 404 "No Airtable credentials found") := by
  constructor
  · unfold get_airtable_credentials
    simp only [hv]
    rw [if_neg hne]
    simp only [hbad]
  · unfold get_airtable_credentials
    rw [storeGet_del_same]

/-- C10 witness: a concrete corrupted record. -/
theorem C10_witness :
    get_airtable_credentials (fun _ => none) "u" "o"
        [(airtableCredKey "o" "u", "junk")] =
      (.error (.http 500 "Corrupted Airtable credentials"),
       storeDel [(airtableCredKey "o" "u", "junk")] (airtableCredKey "o" "u")) ∧
    (get_airtable_credentials (fun _ => none) "u" "o"
        (storeDel [(airtableCredKey "o" "u", "junk")]
          (airtableCredKey "o" "u"))).1 =
      .error (.http 404 "No Airtable credentials found") :=
  C10_theorem (fun _ => none) "u" "o" [(airtableCredKey "o" "u", "junk")]
    "junk" rfl (by decide) rfl

/-- Claim C4: for both credential retrievers, an absent record yields the
provider's NotFound error (404 for Airtable, 400 for Notion) with the store
unchanged; a successful call returns the parse of the stored value with the
record deleted, and a second call immediately after always yields the
NotFound error: the retriever is strictly read-once. -/
theorem C4_theorem :
    (∀ (parse : String → Option JVal) (user_id org_id : String) (store : Store),
      (storeGet store (airtableCredKey org_id user_id) = none →
        get_airtable_credentials parse user_id org_id store =
          (.error (.http 404 "No Airtable credentials found"), store)) ∧
      (∀ j st2,
        get_airtable_credentials parse user_id org_id store = (.ok j, st2) →
        (∃ v, storeGet store (airtableCredKey org_id user_id) = some v ∧
          parse v = some j ∧
          st2 = storeDel store (airtableCredKey org_id user_id)) ∧
        storeGet st2 (airtableCredKey org_id user_id) = none ∧
        (get_airtable_credentials parse user_id org_id st2).1 =
          .error (.http 404 "No Airtable credentials found"))) ∧
    (∀ (parse : String → Option JVal) (user_id org_id : String) (store : Store),
      (storeGet store (notionCredKey org_id user_id) = none →
        get_notion_credentials parse user_id org_id store =
          (.error (.http 400 "No credentials found."), store)) ∧
      (∀ j st2,
        get_notion_credentials parse user_id org_id store = (.ok j, st2) →
        (∃ v, storeGet store (notionCredKey org_id user_id) = some v ∧
          parse v = some j ∧
          st2 = storeDel store (notionCredKey org_id user_id)) ∧
        storeGet st2 (notionCredKey org_id user_id) = none ∧
        (get_notion_credentials parse user_id org_id st2).1 =
          .error (.http 400 "No credentials found."))) := by
  constructor
  · intro parse user_id org_id store
    constructor
    · intro h
      unfold get_airtable_credentials
      rw [h]
    · intro j st2 hok
      unfold get_airtable_credentials at hok
      split at hok
      · exact absurd hok (by simp)
      · rename_i v hv
        split at hok
        · exact absurd hok (by simp)
        · rename_i h0
          split at hok
          · rename_i jv hp
            simp only [Prod.mk.injEq, Except.ok.injEq] at hok
            obtain ⟨hj, hst⟩ := hok
            subst hj
            subst hst
            refine ⟨⟨v, hv, hp, rfl⟩, storeGet_del_same store _, ?_⟩
            unfold get_airtable_credentials
            rw [storeGet_del_same]
          · exact absurd hok (by simp)
  · intro parse user_id org_id store
    constructor
    · intro h
      unfold get_notion_credentials
      rw [h]
    · intro j st2 hok
      unfold get_notion_credentials at hok
      split at hok
      · exact absurd hok (by simp)
      · rename_i v hv
        split at hok
        · exact absurd hok (by simp)
        · rename_i h0
          split at hok
          · exact absurd hok (by simp)
          · rename_i jv hp
            simp only [Prod.mk.injEq, Except.ok.injEq] at hok
            obtain ⟨hj, hst⟩ := hok
            subst hj
            subst hst
            refine ⟨⟨v, hv, hp, rfl⟩, storeGet_del_same store _, ?_⟩
            unfold get_notion_credentials
            rw [storeGet_del_same]

/-- C4 witness: a concrete successful read is read-once. -/
theorem C4_witness :
    storeGet (get_airtable_credentials
        (fun s => if s = "c" then some (JVal.str "t") else none)
        "u" "o" [(airtableCredKey "o" "u", "c")]).2
      (airtableCredKey "o" "u") = none ∧
    (get_airtable_credentials
        (fun s => if s = "c" then some (JVal.str "t") else none) "u" "o"
        (get_airtable_credentials
          (fun s => if s = "c" then some (JVal.str "t") else none)
          "u" "o" [(airtableCredKey "o" "u", "c")]).2).1 =
      .error (.http 404 "No Airtable credentials found") := by
  have h := (C4_theorem.1 (fun s => if s = "c" then some (JVal.str "t") else none)
      "u" "o" [(airtableCredKey "o" "u", "c")]).2 (JVal.str "t")
      (get_airtable_credentials
        (fun s => if s = "c" then some (JVal.str "t") else none)
        "u" "o" [(airtableCredKey "o" "u", "c")]).2 (by rfl)
  exact ⟨h.2.1, h.2.2⟩

/-- Claim C7: the paginated fetch loops while the response carries a truthy
next-page marker and returns all pages' items concatenated in page order;
for Airtable via its recursive offset loop, for HubSpot via the `while more`
cursor loop. -/
theorem C7_theorem :
    (∀ (ps : List AirtablePage) (acc : List JVal), wellPagedA ps = true →
      fetch_items ps acc = .ok (acc ++ joinL (ps.map AirtablePage.bases))) ∧
    (∀ (kvs : JPairs) (pages : List HsPage),
      pyTruthy ((pairsLookup kvs "access_token").getD .null) = true →
      wellPagedH pages = true →
      get_items_hubspot (.obj kvs) false pages =
        .ok (joinL (pages.map
          (fun p => p.results.filterMap hs_create_item)))) := by
  constructor
  · intro ps acc h
    exact fetch_items_concat ps acc h
  · intro kvs pages htok hp
    unfold get_items_hubspot
    dsimp only
    rw [htok]
    simp only [Bool.not_true, Bool.false_eq_true, if_false]
    rw [hubspotLoop_concat pages [] hp]
    simp

/-- C7 witness: two concrete pages, a cursor on page 1, none on page 2. -/
theorem C7_witness :
    fetch_items [⟨200, "", [JVal.str "b1"], some "cur"⟩,
        ⟨200, "", [JVal.str "b2"], none⟩] [] =
      .ok [JVal.str "b1", JVal.str "b2"] ∧
    get_items_hubspot (.obj (.cons "access_token" (.str "t") .nil)) false
        [⟨200, "", [JVal.obj (.cons "id" (.num 7) .nil)], some "a2"⟩,
         ⟨200, "", [], none⟩] =
      .ok [{ id := "7", name := some "Unnamed Contact", type := "Contact" }] := by
  constructor
  · have h := C7_theorem.1 [⟨200, "", [JVal.str "b1"], some "cur"⟩,
      ⟨200, "", [JVal.str "b2"], none⟩] [] (by rfl)
    exact h.trans (by rfl)
  · have h := C7_theorem.2 (.cons "access_token" (.str "t") .nil)
      [⟨200, "", [JVal.obj (.cons "id" (.num 7) .nil)], some "a2"⟩,
       ⟨200, "", [], none⟩] (by rfl) (by rfl)
    exact h.trans (by rfl)

/-- Claim C6: whenever `authorize_airtable` / `authorize_hubspot` returns an
authorization URL, both the state record and the verifier record are
persisted in the resulting store; if either write fails the flow does not
proceed (the result is an error), so no URL-returning execution leaves
exactly one of the two records. -/
theorem C6_theorem :
    (∀ (sha : List Nat → List Nat) (cfg : ProviderConfig)
       (user_id org_id nonce code_verifier : String) (ok1 ok2 : Bool)
       (store : Store) (url : String) (st2 : Store),
      authorize_airtable sha cfg user_id org_id nonce code_verifier ok1 ok2
          store = .ok (url, st2) →
      storeGet st2 (airtableStateKey org_id user_id) =
        some (String.mk (dumpsState ⟨nonce, user_id, org_id⟩)) ∧
      storeGet st2 (airtableVerifierKey org_id user_id) = some code_verifier) ∧
    (∀ (sha : List Nat → List Nat) (cfg : ProviderConfig)
       (user_id org_id nonce code_verifier : String) (ok1 ok2 : Bool)
       (store : Store) (url : String) (st2 : Store),
      authorize_hubspot sha cfg user_id org_id nonce code_verifier ok1 ok2
          store = .ok (url, st2) →
      storeGet st2 (hubspotStateKey org_id user_id) =
        some (String.mk (dumpsState ⟨nonce, user_id, org_id⟩)) ∧
      storeGet st2 (hubspotVerifierKey org_id user_id) = some code_verifier) := by
  constructor
  · intro sha cfg user_id org_id nonce cv ok1 ok2 store url st2 h
    unfold authorize_airtable at h
    split at h
    · exact absurd h (by simp)
    · cases ok1 with
      | false => simp at h
      | true =>
        cases ok2 with
        | false => simp at h
        | true =>
          simp only [if_true, Bool.and_self, Except.ok.injEq,
            Prod.mk.injEq] at h
          obtain ⟨-, hst⟩ := h
          subst hst
          refine ⟨?_, storeGet_set_same _ _ _⟩
          rw [storeGet_set_other _ _ _ _ (airtable_keys_ne org_id user_id)]
          exact storeGet_set_same _ _ _
  · intro sha cfg user_id org_id nonce cv ok1 ok2 store url st2 h
    unfold authorize_hubspot at h
    split at h
    · exact absurd h (by simp)
    · cases ok1 with
      | false => simp at h
      | true =>
        cases ok2 with
        | false => simp at h
        | true =>
          simp only [if_true, Bool.and_self, Except.ok.injEq,
            Prod.mk.injEq] at h
          obtain ⟨-, hst⟩ := h
          subst hst
          refine ⟨?_, storeGet_set_same _ _ _⟩
          rw [storeGet_set_other _ _ _ _ (hubspot_keys_ne org_id user_id)]
          exact storeGet_set_same _ _ _

/-- C6 witness: a concrete successful authorize persists both records. -/
theorem C6_witness :
    storeGet (resStore (authorize_airtable (fun _ => []) ⟨"cid", "sec", "ru"⟩
        "u" "o" "n" "v" true true [])) (airtableStateKey "o" "u") =
      some (String.mk (dumpsState ⟨"n", "u", "o"⟩)) ∧
    storeGet (resStore (authorize_airtable (fun _ => []) ⟨"cid", "sec", "ru"⟩
        "u" "o" "n" "v" true true [])) (airtableVerifierKey "o" "u") =
      some "v" :=
  C6_theorem.1 (fun _ => []) ⟨"cid", "sec", "ru"⟩ "u" "o" "n" "v" true true []
    (resUrl (authorize_airtable (fun _ => []) ⟨"cid", "sec", "ru"⟩
      "u" "o" "n" "v" true true []))
    (resStore (authorize_airtable (fun _ => []) ⟨"cid", "sec", "ru"⟩
      "u" "o" "n" "v" true true []))
    (by rfl)

/-- Claim C8 (amended): the HubSpot fetch surfaces non-200 listing responses
(403 → HTTPException 403, otherwise 502 carrying the upstream status) and
skips only items whose normalization fails, but the Notion fetch swallows
network errors and every non-200 listing response, returning an empty list
instead of raising. -/
theorem C8_theorem :
    (∀ (p : HsPage) (ps : List HsPage) (items : List IntegrationItem),
      p.status = 403 →
      hubspotLoop (p :: ps) items =
        .error (.http 403 "Missing required HubSpot scopes")) ∧
    (∀ (p : HsPage) (ps : List HsPage) (items : List IntegrationItem),
      p.status ≠ 403 → p.status ≠ 200 →
      hubspotLoop (p :: ps) items =
        .error (.http 502 ("HubSpot API error: " ++ toString p.status))) ∧
    (∀ (p : HsPage) (items : List IntegrationItem),
      p.status = 200 → p.after = none →
      hubspotLoop [p] items =
        .ok (items ++ p.results.filterMap hs_create_item)) ∧
    (∀ (kvs : JPairs) (r : NotionResp),
      pyTruthy ((pairsLookup kvs "access_token").getD .null) = true →
      (r.netFail = true ∨ r.status ≠ 200) →
      get_items_notion (.obj kvs) r = .ok []) ∧
    (∀ (kvs : JPairs) (r : NotionResp),
      pyTruthy ((pairsLookup kvs "access_token").getD .null) = true →
      r.netFail = false → r.status = 200 →
      get_items_notion (.obj kvs) r =
        .ok (r.results.filterMap notion_create_item)) := by
  refine ⟨?_, ?_, ?_, ?_, ?_⟩
  · intro p ps items h
    rw [hubspotLoop, if_pos h]
  · intro p ps items h1 h2
    rw [hubspotLoop, if_neg h1, if_pos h2]
  · intro p items h200 hafter
    rw [hubspotLoop, if_neg (by simp [h200]), if_neg (by simp [h200]), hafter]
  · intro kvs r htok hbad
    unfold get_items_notion
    rcases hbad with hb | hb
    · simp [htok, hb]
    · by_cases hn : r.netFail <;> simp [htok, hn, hb]
  · intro kvs r htok hnf hs200
    unfold get_items_notion
    simp [htok, hnf, hs200]

/-- C8 counterexample: a non-200 Notion listing response is swallowed and
an empty result is returned instead of an error being raised. -/
theorem C8_counterexample :
    get_items_notion (.obj (.cons "access_token" (.str "t") .nil))
        ⟨false, 500, "boom", []⟩ = .ok [] ∧ (500 : Nat) ≠ 200 :=
  ⟨rfl, by decide⟩

/-- C8 witness: concrete instances of the amended propagation behaviour. -/
theorem C8_witness :
    hubspotLoop [⟨500, "", [], none⟩] [] =
      .error (.http 502 "HubSpot API error: 500") ∧
    hubspotLoop [⟨200, "", [JVal.obj (.cons "id" (.num 1) .nil), JVal.str "bad",
        JVal.obj (.cons "id" (.num 2) .nil)], none⟩] [] =
      .ok [{ id := "1", name := some "Unnamed Contact", type := "Contact" },
           { id := "2", name := some "Unnamed Contact", type := "Contact" }] ∧
    get_items_notion (.obj (.cons "access_token" (.str "t") .nil))
        ⟨true, 200, "", []⟩ = .ok [] := by
  refine ⟨?_, ?_, ?_⟩
  · have h := C8_theorem.2.1 ⟨500, "", [], none⟩ [] [] (by decide) (by decide)
    exact h.trans (by rfl)
  · have h := C8_theorem.2.2.1 ⟨200, "",
      [JVal.obj (.cons "id" (.num 1) .nil), JVal.str "bad",
       JVal.obj (.cons "id" (.num 2) .nil)], none⟩ [] rfl rfl
    exact h.trans (by rfl)
  · exact C8_theorem.2.2.2.1 (.cons "access_token" (.str "t") .nil)
      ⟨true, 200, "", []⟩ rfl (Or.inl rfl)

/-- Claim C3 (amended): the Airtable authorize URL embeds client_id,
response_type=code, redirect_uri, the encoded state (which decodes back to
the flow state), a PKCE code_challenge, code_challenge_method=S256 and the
provider scope; but the Notion authorize URL carries no PKCE challenge and
no scope parameter at all — it embeds only client_id, response_type=code,
the quoted redirect_uri and the URL-quoted JSON state. -/
theorem C3_theorem :
    (∀ (sha : List Nat → List Nat) (cfg : ProviderConfig)
       (user_id org_id nonce code_verifier : String) (store : Store)
       (url : String) (st2 : Store),
      authorize_airtable sha cfg user_id org_id nonce code_verifier true true
          store = .ok (url, st2) →
      containsSub url ("client_id=" ++ cfg.client_id) = true ∧
      containsSub url "response_type=code" = true ∧
      containsSub url ("redirect_uri=" ++ cfg.redirect_uri) = true ∧
      containsSub url ("state=" ++ encodeState ⟨nonce, user_id, org_id⟩) = true ∧
      containsSub url ("code_challenge=" ++
        pkceChallengeAirtable sha code_verifier) = true ∧
      containsSub url "code_challenge_method=S256" = true ∧
      containsSub url ("scope=" ++ airtableScope) = true ∧
      (nonce ≠ "" → decodeState (encodeState ⟨nonce, user_id, org_id⟩) =
        some ⟨nonce, user_id, org_id⟩)) ∧
    (∀ (cfg : ProviderConfig) (user_id org_id nonce : String) (store : Store)
       (url : String) (st2 : Store),
      authorize_notion cfg user_id org_id nonce true store = .ok (url, st2) →
      containsSub url ("client_id=" ++ cfg.client_id) = true ∧
      containsSub url "response_type=code" = true ∧
      containsSub url ("redirect_uri=" ++ pyQuote "" cfg.redirect_uri) = true ∧
      containsSub url ("state=" ++ pyQuote "/"
        (String.mk (dumpsState ⟨nonce, user_id, org_id⟩))) = true) := by
  constructor
  · intro sha cfg user_id org_id nonce cv store url st2 h
    unfold authorize_airtable at h
    split at h
    · exact absurd h (by simp)
    · rename_i hc
      push_neg at hc
      simp only [if_true, Bool.and_self, Except.ok.injEq, Prod.mk.injEq] at h
      obtain ⟨hurl, -⟩ := h
      subst hurl
      refine ⟨?_, ?_, ?_, ?_, ?_, ?_, ?_, ?_⟩
      · apply containsSub_append_left
        apply containsSub_append_left
        apply containsSub_append_left
        apply containsSub_append_left
        apply containsSub_append_left
        apply containsSub_append_left
        apply containsSub_append_left
        apply containsSub_append_left
        rw [show ("https://airtable.com/oauth2/v1/authorize?client_id=" :
            String) =
          "https://airtable.com/oauth2/v1/authorize?" ++ "client_id="
          from rfl, String.append_assoc]
        apply containsSub_append_right
        exact containsSub_self _
      · apply containsSub_append_left
        apply containsSub_append_left
        apply containsSub_append_left
        apply containsSub_append_left
        apply containsSub_append_left
        apply containsSub_append_left
        apply containsSub_append_left
        apply containsSub_append_right
        rfl
      · apply containsSub_append_left
        apply containsSub_append_left
        apply containsSub_append_left
        apply containsSub_append_left
        apply containsSub_append_left
        apply containsSub_append_left
        rw [String.append_assoc]
        apply containsSub_append_right
        rw [show ("&response_type=code&owner=user&redirect_uri=" : String) =
          "&response_type=code&owner=user&" ++ "redirect_uri=" from rfl,
          String.append_assoc]
        apply containsSub_append_right
        exact containsSub_self _
      · apply containsSub_append_left
        apply containsSub_append_left
        apply containsSub_append_left
        apply containsSub_append_left
        rw [String.append_assoc]
        apply containsSub_append_right
        rw [show ("&state=" : String) = "&" ++ "state=" from rfl,
          String.append_assoc]
        apply containsSub_append_right
        exact containsSub_self _
      · apply containsSub_append_left
        apply containsSub_append_left
        rw [String.append_assoc]
        apply containsSub_append_right
        rw [show ("&code_challenge=" : String) = "&" ++ "code_challenge="
          from rfl, String.append_assoc]
        apply containsSub_append_right
        exact containsSub_self _
      · apply containsSub_append_left
        apply containsSub_append_right
        rfl
      · rw [String.append_assoc]
        apply containsSub_append_right
        rw [show ("&code_challenge_method=S256&scope=" : String) =
          "&code_challenge_method=S256&" ++ "scope=" from rfl,
          String.append_assoc]
        apply containsSub_append_right
        exact containsSub_self _
      · intro hn
        exact decodeState_encodeState ⟨nonce, user_id, org_id⟩ hn hc.1 hc.2
  · intro cfg user_id org_id nonce store url st2 h
    unfold authorize_notion at h
    simp only [if_true, Except.ok.injEq, Prod.mk.injEq] at h
    obtain ⟨hurl, -⟩ := h
    subst hurl
    refine ⟨?_, ?_, ?_, ?_⟩
    · apply containsSub_append_left
      apply containsSub_append_left
      apply containsSub_append_left
      apply containsSub_append_left
      rw [show ("https://api.notion.com/v1/oauth/authorize?client_id=" :
          String) =
        "https://api.notion.com/v1/oauth/authorize?" ++ "client_id="
        from rfl, String.append_assoc]
      apply containsSub_append_right
      exact containsSub_self _
    · apply containsSub_append_left
      apply containsSub_append_left
      apply containsSub_append_left
      apply containsSub_append_right
      rfl
    · apply containsSub_append_left
      apply containsSub_append_left
      rw [String.append_assoc]
      apply containsSub_append_right
      rw [show ("&response_type=code&owner=user&redirect_uri=" : String) =
        "&response_type=code&owner=user&" ++ "redirect_uri=" from rfl,
        String.append_assoc]
      apply containsSub_append_right
      exact containsSub_self _
    · rw [String.append_assoc]
      apply containsSub_append_right
      rw [show ("&state=" : String) = "&" ++ "state=" from rfl,
        String.append_assoc]
      apply containsSub_append_right
      exact containsSub_self _

/-- C3 counterexample: the Notion authorize call succeeds yet its URL
contains no `code_challenge` parameter at all. -/
theorem C3_counterexample :
    isOkRes (authorize_notion ⟨"cid", "sec", "http://localhost/cb"⟩
      "u1" "o1" "n1" true []) = true ∧
    containsSub (resUrl (authorize_notion ⟨"cid", "sec", "http://localhost/cb"⟩
      "u1" "o1" "n1" true [])) "code_challenge" = false :=
  ⟨rfl, rfl⟩

/-- C3 witness: the Airtable URL parts at concrete inputs. -/
theorem C3_witness :
    containsSub (resUrl (authorize_airtable (fun _ => [])
        ⟨"cid", "sec", "ru"⟩ "u1" "o1" "n1" "v" true true []))
      "code_challenge_method=S256" = true ∧
    decodeState (encodeState ⟨"n1", "u1", "o1"⟩) = some ⟨"n1", "u1", "o1"⟩ := by
  have h := C3_theorem.1 (fun _ => []) ⟨"cid", "sec", "ru"⟩ "u1" "o1" "n1" "v"
    []
    (resUrl (authorize_airtable (fun _ => []) ⟨"cid", "sec", "ru"⟩
      "u1" "o1" "n1" "v" true true []))
    (resStore (authorize_airtable (fun _ => []) ⟨"cid", "sec", "ru"⟩
      "u1" "o1" "n1" "v" true true []))
    (by rfl)
  exact ⟨h.2.2.2.2.2.1, h.2.2.2.2.2.2.2 (by decide)⟩

theorem airtable_state_cred_ne (org_id user_id : String) :
    airtableStateKey org_id user_id ≠ airtableCredKey org_id user_id := by
  unfold airtableStateKey airtableCredKey
  simp only [String.append_assoc]
  exact append_ne_of_ne_at _ _ _ _ 9 (by decide) (by decide) (by decide)

theorem airtable_verifier_cred_ne (org_id user_id : String) :
    airtableVerifierKey org_id user_id ≠ airtableCredKey org_id user_id := by
  unfold airtableVerifierKey airtableCredKey
  simp only [String.append_assoc]
  exact append_ne_of_ne_at _ _ _ _ 9 (by decide) (by decide) (by decide)

theorem notion_state_cred_ne (org_id user_id : String) :
    notionStateKey org_id user_id ≠ notionCredKey org_id user_id := by
  unfold notionStateKey notionCredKey
  simp only [String.append_assoc]
  exact append_ne_of_ne_at _ _ _ _ 7 (by decide) (by decide) (by decide)

/-- The two deletes the airtable callback always performs. -/
def airtableCleanup (store : Store) (org_id user_id : String) : Store :=
  storeDel (storeDel store (airtableStateKey org_id user_id))
    (airtableVerifierKey org_id user_id)

theorem storeGet_cleanup_state (store : Store) (org_id user_id : String) :
    storeGet (airtableCleanup store org_id user_id)
      (airtableStateKey org_id user_id) = none := by
  unfold airtableCleanup
  rw [storeGet_del_other _ _ _ (airtable_keys_ne org_id user_id),
    storeGet_del_same]

theorem storeGet_cleanup_verifier (store : Store) (org_id user_id : String) :
    storeGet (airtableCleanup store org_id user_id)
      (airtableVerifierKey org_id user_id) = none :=
  storeGet_del_same _ _

/-- With every callback guard satisfied, `oauth2callback_airtable` reduces
to the token-exchange phase over the store with both transient keys
deleted. -/
theorem cb_airtable_guards (cfg : ProviderConfig) (q : CbParams)
    (tok : TokenResult) (store : Store) (raw saved : FlowState)
    (sv cv : String)
    (he : truthyS q.error = false) (hc : truthyS q.code = true)
    (hs : truthyS q.state = true)
    (hdec : decodeStateJson (pyGetS q.state) = some raw)
    (hraw : ¬(raw.user_id = "" ∨ raw.org_id = "" ∨ raw.nonce = ""))
    (hsv : storeGet store (airtableStateKey raw.org_id raw.user_id) = some sv)
    (hcv : storeGet store (airtableVerifierKey raw.org_id raw.user_id) =
      some cv)
    (hne : ¬(sv = "" ∨ cv = "")) (hload : loadsState sv.data = some saved)
    (hnonce : raw.nonce = saved.nonce) :
    oauth2callback_airtable cfg q tok store =
      (match tok with
       | .netErr msg =>
         (.error (.http 502 ("Airtable token request failed: " ++ msg)),
          airtableCleanup store raw.org_id raw.user_id)
       | .resp status body payload =>
         if status ≠ 200 then
           (.error (.http status ("Airtable token exchange failed: " ++ body)),
            airtableCleanup store raw.org_id raw.user_id)
         else
           match payload with
           | none => (.error (.http 500 "Internal Server Error"),
               airtableCleanup store raw.org_id raw.user_id)
           | some pl =>
             (.ok closeHtml,
              storeSet (airtableCleanup store raw.org_id raw.user_id)
                (airtableCredKey raw.org_id raw.user_id) pl.dumped)) := by
  unfold oauth2callback_airtable
  split
  · rename_i h
    exact absurd h (by simp [he])
  · split
    · rename_i h
      exact absurd h (by simp [hc, hs])
    · split
      · rename_i heq
        rw [hdec] at heq
        exact Option.noConfusion heq
      · rename_i raw2 heq
        rw [hdec] at heq
        injection heq with hr
        subst hr
        split
        · rename_i h
          exact absurd h hraw
        · split
          · rename_i sv2 cv2 heq1 heq2
            rw [hsv] at heq1
            injection heq1 with h1
            subst h1
            rw [hcv] at heq2
            injection heq2 with h2
            subst h2
            split
            · rename_i h
              exact absurd h hne
            · split
              · rename_i hl
                rw [hload] at hl
                exact Option.noConfusion hl
              · rename_i saved2 hl
                rw [hload] at hl
                injection hl with hsd
                subst hsd
                split
                · rename_i h
                  exact absurd hnonce h
                · rfl
          · rename_i h
            exact (h sv cv hsv hcv).elim

/-- With every callback guard satisfied, `oauth2callback_notion` reduces to
the token-exchange phase over the store with the single state key
deleted. -/
theorem cb_notion_guards (cfg : ProviderConfig) (q : CbParams)
    (tok : TokenResult) (store : Store) (raw saved : FlowState) (sv : String)
    (he : truthyS q.error = false) (hc : truthyS q.code = true)
    (hs : truthyS q.state = true)
    (hdec : (pyUnquote (pyGetS q.state)).bind (fun t => loadsState t.data) =
      some raw)
    (hraw : ¬(raw.nonce = "" ∨ raw.user_id = "" ∨ raw.org_id = ""))
    (hsv : storeGet store (notionStateKey raw.org_id raw.user_id) = some sv)
    (hne : ¬sv = "") (hload : loadsState sv.data = some saved)
    (hnonce : raw.nonce = saved.nonce) :
    oauth2callback_notion cfg q tok store =
      (match tok with
       | .netErr msg =>
         (.error (.http 500 "Internal Server Error"),
          storeDel store (notionStateKey raw.org_id raw.user_id))
       | .resp status body payload =>
         if status ≠ 200 then
           (.error (.http status "Token exchange failed."),
            storeDel store (notionStateKey raw.org_id raw.user_id))
         else
           match payload with
           | none => (.error (.http 500 "Internal Server Error"),
               storeDel store (notionStateKey raw.org_id raw.user_id))
           | some pl =>
             if !pl.hasAccessToken then
               (.error (.http 400 "No access token in response."),
                storeDel store (notionStateKey raw.org_id raw.user_id))
             else
               (.ok closeHtml,
                storeSet
                  (storeDel store (notionStateKey raw.org_id raw.user_id))
                  (notionCredKey raw.org_id raw.user_id) pl.dumped)) := by
  unfold oauth2callback_notion
  split
  · rename_i h
    exact absurd h (by simp [he])
  · split
    · rename_i h
      exact absurd h (by simp [hc, hs])
    · split
      · rename_i heq
        rw [hdec] at heq
        exact Option.noConfusion heq
      · rename_i raw2 heq
        rw [hdec] at heq
        injection heq with hr
        subst hr
        split
        · rename_i h
          exact absurd h hraw
        · split
          · rename_i heq1
            rw [hsv] at heq1
            exact Option.noConfusion heq1
          · rename_i sv2 heq1
            rw [hsv] at heq1
            injection heq1 with h1
            subst h1
            split
            · rename_i h
              exact absurd h hne
            · split
              · rename_i hl
                rw [hload] at hl
                exact Option.noConfusion hl
              · rename_i saved2 hl
                rw [hload] at hl
                injection hl with hsd
                subst hsd
                split
                · rename_i h
                  exact absurd hnonce h
                · rfl

/-- Claim C1 (amended): once the token-exchange step is reached, the
Airtable callback deletes both the state record and the verifier record
regardless of the exchange outcome and surfaces a non-200 exchange as an
HTTPException carrying the upstream status and response body; the Notion
callback persists no verifier record at all — it deletes its single state
record regardless of the outcome, and surfaces a non-200 exchange with the
upstream status but a fixed detail that does not carry the response
body. -/
theorem C1_theorem :
    (∀ (cfg : ProviderConfig) (q : CbParams) (tok : TokenResult)
       (store : Store) (raw saved : FlowState) (sv cv : String),
      truthyS q.error = false → truthyS q.code = true →
      truthyS q.state = true →
      decodeStateJson (pyGetS q.state) = some raw →
      ¬(raw.user_id = "" ∨ raw.org_id = "" ∨ raw.nonce = "") →
      storeGet store (airtableStateKey raw.org_id raw.user_id) = some sv →
      storeGet store (airtableVerifierKey raw.org_id raw.user_id) = some cv →
      ¬(sv = "" ∨ cv = "") → loadsState sv.data = some saved →
      raw.nonce = saved.nonce →
      storeGet (oauth2callback_airtable cfg q tok store).2
          (airtableStateKey raw.org_id raw.user_id) = none ∧
      storeGet (oauth2callback_airtable cfg q tok store).2
          (airtableVerifierKey raw.org_id raw.user_id) = none ∧
      (∀ status body payload, tok = .resp status body payload →
        status ≠ 200 →
        (oauth2callback_airtable cfg q tok store).1 =
          .error (.http status
            ("Airtable token exchange failed: " ++ body)))) ∧
    (∀ (cfg : ProviderConfig) (q : CbParams) (tok : TokenResult)
       (store : Store) (raw saved : FlowState) (sv : String),
      truthyS q.error = false → truthyS q.code = true →
      truthyS q.state = true →
      (pyUnquote (pyGetS q.state)).bind (fun t => loadsState t.data) =
        some raw →
      ¬(raw.nonce = "" ∨ raw.user_id = "" ∨ raw.org_id = "") →
      storeGet store (notionStateKey raw.org_id raw.user_id) = some sv →
      ¬sv = "" → loadsState sv.data = some saved →
      raw.nonce = saved.nonce →
      storeGet (oauth2callback_notion cfg q tok store).2
          (notionStateKey raw.org_id raw.user_id) = none ∧
      (∀ status body payload, tok = .resp status body payload →
        status ≠ 200 →
        (oauth2callback_notion cfg q tok store).1 =
          .error (.http status "Token exchange failed."))) := by
  constructor
  · intro cfg q tok store raw saved sv cv he hc hs hdec hraw hsv hcv hne
      hload hnonce
    rcases tok with msg | ⟨status, body, payload⟩
    · have hred : oauth2callback_airtable cfg q (.netErr msg) store =
          (.error (.http 502 ("Airtable token request failed: " ++ msg)),
           airtableCleanup store raw.org_id raw.user_id) :=
        cb_airtable_guards cfg q (.netErr msg) store raw saved sv cv
          he hc hs hdec hraw hsv hcv hne hload hnonce
      refine ⟨?_, ?_, ?_⟩
      · rw [hred]
        exact storeGet_cleanup_state store raw.org_id raw.user_id
      · rw [hred]
        exact storeGet_cleanup_verifier store raw.org_id raw.user_id
      · intro st bd pl heq h200
        exact TokenResult.noConfusion heq
    · have hred : oauth2callback_airtable cfg q (.resp status body payload)
          store =
          (if status ≠ 200 then
             (.error (.http status
                ("Airtable token exchange failed: " ++ body)),
              airtableCleanup store raw.org_id raw.user_id)
           else
             match payload with
             | none => (.error (.http 500 "Internal Server Error"),
                 airtableCleanup store raw.org_id raw.user_id)
             | some pl =>
               (.ok closeHtml,
                storeSet (airtableCleanup store raw.org_id raw.user_id)
                  (airtableCredKey raw.org_id raw.user_id) pl.dumped)) :=
        cb_airtable_guards cfg q (.resp status body payload) store raw saved
          sv cv he hc hs hdec hraw hsv hcv hne hload hnonce
      refine ⟨?_, ?_, ?_⟩
      · by_cases h200 : status ≠ 200
        · rw [hred, if_pos h200]
          exact storeGet_cleanup_state store raw.org_id raw.user_id
        · rw [hred, if_neg h200]
          rcases payload with _ | pl
          · exact storeGet_cleanup_state store raw.org_id raw.user_id
          · show storeGet (storeSet (airtableCleanup store raw.org_id
                raw.user_id) (airtableCredKey raw.org_id raw.user_id)
                pl.dumped) (airtableStateKey raw.org_id raw.user_id) = none
            rw [storeGet_set_other _ _ _ _
              (airtable_state_cred_ne raw.org_id raw.user_id)]
            exact storeGet_cleanup_state store raw.org_id raw.user_id
      · by_cases h200 : status ≠ 200
        · rw [hred, if_pos h200]
          exact storeGet_cleanup_verifier store raw.org_id raw.user_id
        · rw [hred, if_neg h200]
          rcases payload with _ | pl
          · exact storeGet_cleanup_verifier store raw.org_id raw.user_id
          · show storeGet (storeSet (airtableCleanup store raw.org_id
                raw.user_id) (airtableCredKey raw.org_id raw.user_id)
                pl.dumped) (airtableVerifierKey raw.org_id raw.user_id) = none
            rw [storeGet_set_other _ _ _ _
              (airtable_verifier_cred_ne raw.org_id raw.user_id)]
            exact storeGet_cleanup_verifier store raw.org_id raw.user_id
      · intro st bd pl heq h200
        injection heq with e1 e2 e3
        subst e1
        subst e2
        subst e3
        rw [hred, if_pos h200]
  · intro cfg q tok store raw saved sv he hc hs hdec hraw hsv hne
      hload hnonce
    rcases tok with msg | ⟨status, body, payload⟩
    · have hred : oauth2callback_notion cfg q (.netErr msg) store =
          (.error (.http 500 "Internal Server Error"),
           storeDel store (notionStateKey raw.org_id raw.user_id)) :=
        cb_notion_guards cfg q (.netErr msg) store raw saved sv
          he hc hs hdec hraw hsv hne hload hnonce
      refine ⟨?_, ?_⟩
      · rw [hred]
        exact storeGet_del_same store (notionStateKey raw.org_id raw.user_id)
      · intro st bd pl heq h200
        exact TokenResult.noConfusion heq
    · have hred : oauth2callback_notion cfg q (.resp status body payload)
          store =
          (if status ≠ 200 then
             (.error (.http status "Token exchange failed."),
              storeDel store (notionStateKey raw.org_id raw.user_id))
           else
             match payload with
             | none => (.error (.http 500 "Internal Server Error"),
                 storeDel store (notionStateKey raw.org_id raw.user_id))
             | some pl =>
               if !pl.hasAccessToken then
                 (.error (.http 400 "No access token in response."),
                  storeDel store (notionStateKey raw.org_id raw.user_id))
               else
                 (.ok closeHtml,
                  storeSet
                    (storeDel store (notionStateKey raw.org_id raw.user_id))
                    (notionCredKey raw.org_id raw.user_id) pl.dumped)) :=
        cb_notion_guards cfg q (.resp status body payload) store raw saved
          sv he hc hs hdec hraw hsv hne hload hnonce
      refine ⟨?_, ?_⟩
      · by_cases h200 : status ≠ 200
        · rw [hred, if_pos h200]
          exact storeGet_del_same store
            (notionStateKey raw.org_id raw.user_id)
        · rw [hred, if_neg h200]
          rcases payload with _ | pl
          · exact storeGet_del_same store
              (notionStateKey raw.org_id raw.user_id)
          · dsimp only
            cases hab : pl.hasAccessToken
            · exact storeGet_del_same store
                (notionStateKey raw.org_id raw.user_id)
            · show storeGet (storeSet
                  (storeDel store (notionStateKey raw.org_id raw.user_id))
                  (notionCredKey raw.org_id raw.user_id) pl.dumped)
                (notionStateKey raw.org_id raw.user_id) = none
              rw [storeGet_set_other _ _ _ _
                (notion_state_cred_ne raw.org_id raw.user_id)]
              exact storeGet_del_same store
                (notionStateKey raw.org_id raw.user_id)
      · intro st bd pl heq h200
        injection heq with e1 e2 e3
        subst e1
        subst e2
        subst e3
        rw [hred, if_pos h200]

/-- C1 counterexample: the Notion callback reaches the exchange with a 401
token response, and the raised error's detail is the fixed string
"Token exchange failed." — the response body is not carried. -/
theorem C1_counterexample :
    (oauth2callback_notion ⟨"cid", "sec", "ru"⟩
        ⟨none, none, some "code1",
         some "\x7b\"state\": \"n1\", \"user_id\": \"u1\", \"org_id\": \"o1\"\x7d"⟩
        (.resp 401 "secret-body" (some ⟨true, "pl"⟩))
        [(notionStateKey "o1" "u1",
          String.mk (dumpsState ⟨"n1", "u1", "o1"⟩))]).1 =
      .error (.http 401 "Token exchange failed.") ∧
    containsSub "Token exchange failed." "secret-body" = false :=
  ⟨rfl, rfl⟩

/-- C1 witness: the Airtable callback at a concrete 401 exchange deletes
both transient keys and surfaces the status and body. -/
theorem C1_witness :
    storeGet (oauth2callback_airtable ⟨"cid", "sec", "ru"⟩
        ⟨none, none, some "c0", some (encodeState ⟨"n1", "u1", "o1"⟩)⟩
        (.resp 401 "bad" none)
        [(airtableStateKey "o1" "u1",
          String.mk (dumpsState ⟨"n1", "u1", "o1"⟩)),
         (airtableVerifierKey "o1" "u1", "ver")]).2
      (airtableStateKey "o1" "u1") = none ∧
    storeGet (oauth2callback_airtable ⟨"cid", "sec", "ru"⟩
        ⟨none, none, some "c0", some (encodeState ⟨"n1", "u1", "o1"⟩)⟩
        (.resp 401 "bad" none)
        [(airtableStateKey "o1" "u1",
          String.mk (dumpsState ⟨"n1", "u1", "o1"⟩)),
         (airtableVerifierKey "o1" "u1", "ver")]).2
      (airtableVerifierKey "o1" "u1") = none ∧
    (oauth2callback_airtable ⟨"cid", "sec", "ru"⟩
        ⟨none, none, some "c0", some (encodeState ⟨"n1", "u1", "o1"⟩)⟩
        (.resp 401 "bad" none)
        [(airtableStateKey "o1" "u1",
          String.mk (dumpsState ⟨"n1", "u1", "o1"⟩)),
         (airtableVerifierKey "o1" "u1", "ver")]).1 =
      .error (.http 401 "Airtable token exchange failed: bad") := by
  have h := C1_theorem.1 ⟨"cid", "sec", "ru"⟩
    ⟨none, none, some "c0", some (encodeState ⟨"n1", "u1", "o1"⟩)⟩
    (.resp 401 "bad" none)
    [(airtableStateKey "o1" "u1", String.mk (dumpsState ⟨"n1", "u1", "o1"⟩)),
     (airtableVerifierKey "o1" "u1", "ver")]
    ⟨"n1", "u1", "o1"⟩ ⟨"n1", "u1", "o1"⟩
    (String.mk (dumpsState ⟨"n1", "u1", "o1"⟩)) "ver"
    rfl rfl rfl (decodeStateJson_encodeState ⟨"n1", "u1", "o1"⟩)
    (by decide) rfl rfl (by decide) rfl rfl
  exact ⟨h.1, h.2.1, h.2.2 401 "bad" none rfl (by decide)⟩
